import Mathlib

/-! Address-validation tokens of `src/event/quic/ngx_event_quic_tokens.c`.

A shallow embedding of `ngx_quic_new_sr_token`, `ngx_quic_new_token`,
`ngx_quic_address_hash` and `ngx_quic_validate_token`, and the properties of issuing and
validating tokens.

Conventions of the embedding:

* a byte (`u_char`) is a `Nat`, a byte string is a `List Nat`;
* an `ngx_str_t` is its `len` field and the bytes its `data` pointer points to
  (`none` for a `NULL` pointer);
* what the translation unit takes from other libraries (SHA-1, the OpenSSL EVP
  cipher calls, the build flag `NGX_HAVE_INET6`) is a parameter `L : Library`, and what
  the reset token takes from the protection code a parameter `P : Protection`;
* what a call takes from its surroundings (the clock, the random generator, whether
  an allocation succeeds) is a parameter `env : Env`;
* `ngx_quic_validate_token` returns its return code, the packet header as it leaves
  it, and the line it logged.
-/

namespace NgxQuicTokens

/-! ## Constants of the headers -/

/-- The type of nginx return codes. -/
abbrev ngx_int_t := Int

/-- Return code `NGX_OK` of `ngx_core.h`. -/
@[simp] def NGX_OK : ngx_int_t := 0
/-- Return code `NGX_ERROR` of `ngx_core.h`. -/
@[simp] def NGX_ERROR : ngx_int_t := -1
/-- Return code `NGX_DECLINED` of `ngx_core.h`. -/
@[simp] def NGX_DECLINED : ngx_int_t := -5
/-- Return code `NGX_ABORT` of `ngx_core.h`. -/
@[simp] def NGX_ABORT : ngx_int_t := -6

/-- Capacity of the plaintext buffers `in` and `tdec` (line 14). -/
@[simp] def NGX_QUIC_MAX_TOKEN_SIZE : Nat := 64
/-- Longest connection id of the transport. -/
@[simp] def NGX_QUIC_MAX_CID_LEN : Nat := 20
/-- Width of `time_t` in bytes. -/
@[simp] def sizeof_time_t : Nat := 8
/-- Value of `EVP_CIPHER_iv_length(EVP_aes_256_cbc())`. -/
@[simp] def EVP_CIPHER_iv_length : Nat := 16
/-- Value of `EVP_CIPHER_block_size(EVP_aes_256_cbc())`. -/
@[simp] def EVP_CIPHER_block_size : Nat := 16
/-- Address family tag of IPv4 socket addresses. -/
@[simp] def AF_INET : Nat := 2
/-- Address family tag of IPv6 socket addresses. -/
@[simp] def AF_INET6 : Nat := 10

/-! ## Data -/

/-- An nginx string: the `len` field and the bytes behind the `data` pointer. -/
structure ngx_str_t where
  len : Nat
  data : Option (List Nat)
deriving DecidableEq

/-- The `len` bytes an `ngx_str_t` designates. -/
def ngx_str_t.bytes (s : ngx_str_t) : List Nat :=
  (s.data.getD []).take s.len

/-- A string whose `data` pointer is not `NULL` and has at least `len` bytes behind it. -/
def ngx_str_t.valid (s : ngx_str_t) : Prop :=
  ∃ bs, s.data = some bs ∧ s.len ≤ bs.length

/-- The socket address `c->sockaddr` points to, through the three views the code takes of
it: the family tag, the object representation read through `(u_char *) c->sockaddr`, and the
address field of `struct sockaddr_in` and of `struct sockaddr_in6`. The port is part of
`raw` only. -/
structure sockaddr where
  sa_family : Nat
  raw : List Nat
  sin_addr : List Nat
  sin6_addr : List Nat
deriving DecidableEq

/-- The fields of `ngx_connection_t` the token code reads. -/
structure ngx_connection_t where
  sockaddr : sockaddr
  socklen : Nat
deriving DecidableEq

/-- The fields of `ngx_quic_header_t` the token code reads and writes. -/
structure ngx_quic_header_t where
  token : ngx_str_t
  dcid : ngx_str_t
  odcid : ngx_str_t
  retried : Bool
  validated : Bool
deriving DecidableEq

/-- The lines `ngx_quic_validate_token` writes to the log at `NGX_LOG_INFO`:
"quic garbage token", "quic invalid token", "quic expired token". -/
inductive log_line where
  | garbage_token
  | invalid_token
  | expired_token
deriving DecidableEq

/-- What the translation unit takes from other libraries. The four EVP functions give the
bytes the call writes to its output, or `none` when the call reports failure, for a cipher
context initialised with `key` and `iv` that has been fed `data`. -/
structure Library where
  NGX_HAVE_INET6 : Bool
  ngx_sha1 : List Nat → List Nat
  ngx_sha1_length : ∀ m, (ngx_sha1 m).length = 20
  EVP_EncryptUpdate : (key iv data : List Nat) → Option (List Nat)
  EVP_EncryptFinal_ex : (key iv data : List Nat) → Option (List Nat)
  EVP_DecryptUpdate : (key iv data : List Nat) → Option (List Nat)
  EVP_DecryptFinal_ex : (key iv data : List Nat) → Option (List Nat)

/-- What one call takes from its surroundings: the clock `ngx_time()`, whether the pool
allocations and the cipher context calls succeed, and the bytes `RAND_bytes` delivers. -/
structure Env where
  ngx_time : Int
  ngx_pnalloc_ok : Bool
  ngx_pstrdup_ok : Bool
  EVP_CIPHER_CTX_new_ok : Bool
  EVP_Init_ex_ok : Bool
  RAND_bytes : Option (List Nat)
  RAND_bytes_length : ∀ iv, RAND_bytes = some iv → iv.length = EVP_CIPHER_iv_length

/-! ## `time_t` in memory -/

/-- Object representation of a `time_t`: eight bytes, two's complement, least significant
byte first. -/
def time_t_bytes (t : Int) : List Nat :=
  let n := (t % 18446744073709551616).toNat
  [n % 256, n / 256 % 256, n / 65536 % 256, n / 16777216 % 256,
   n / 4294967296 % 256, n / 1099511627776 % 256, n / 281474976710656 % 256,
   n / 72057594037927936 % 256]

/-- The `time_t` whose object representation is the given bytes. -/
def time_t_of_bytes (bs : List Nat) : Int :=
  let n : Nat := bs.foldr (fun b acc => b + 256 * acc) 0
  if n < 9223372036854775808 then (n : Int) else (n : Int) - 18446744073709551616

/-- Values a `time_t` can hold. -/
def time_t_range (t : Int) : Prop :=
  -9223372036854775808 ≤ t ∧ t < 9223372036854775808

/-! ## The functions of the file -/

/-- Lines 127-167. `no_port` is the truth value of the `ngx_uint_t` argument. The case
`AF_INET6` is there in a build with `NGX_HAVE_INET6` only. -/
def ngx_quic_address_hash (L : Library) (c : ngx_connection_t) (no_port : Bool) : List Nat :=
  -- lines 138-139
  let len := c.socklen
  let data := c.sockaddr.raw
  -- lines 141-162
  let sel : List Nat × Nat :=
    if no_port then
      if L.NGX_HAVE_INET6 = true ∧ c.sockaddr.sa_family = AF_INET6 then
        (c.sockaddr.sin6_addr, 16)
      else if c.sockaddr.sa_family = AF_INET then
        (c.sockaddr.sin_addr, 4)
      else (data, len)
    else (data, len)
  -- lines 164-166
  L.ngx_sha1 (sel.1.take sel.2)

/-- Lines 57-75 of `ngx_quic_new_token`: the bytes stored from `in` up to `p`, in order.
The list is as long as `p - in`. It is the content of `in` while it has at most
`NGX_QUIC_MAX_TOKEN_SIZE` bytes, that is for an id of at most 34 bytes; a longer list
says that the stores of line 69 leave the buffer, after which C defines nothing. -/
def ngx_quic_new_token_in (L : Library) (c : ngx_connection_t) (odcid : Option ngx_str_t)
    (exp : Int) (is_retry : Nat) : List Nat :=
  ngx_quic_address_hash L c (decide (is_retry = 0))
    ++ time_t_bytes exp
    ++ [if is_retry ≠ 0 then 1 else 0]
    ++ (match odcid with
        | some o => (o.len % 256) :: o.bytes
        | none => [0])

/-- Lines 48-124. The result is `.ok token` for `NGX_OK` with the token stored through
`token`, and `.error rc` for another return code. It describes the calls whose plaintext
fits `in`; for a plaintext of more than `NGX_QUIC_MAX_TOKEN_SIZE` bytes the source has
left the buffer at line 69 and the value here describes nothing of it. -/
def ngx_quic_new_token (L : Library) (env : Env) (c : ngx_connection_t) (key : List Nat)
    (odcid : Option ngx_str_t) (exp : Int) (is_retry : Nat) : Except ngx_int_t ngx_str_t :=
  -- lines 57-75
  let input := ngx_quic_new_token_in L c odcid exp is_retry
  let iv_len := EVP_CIPHER_iv_length
  -- lines 80-84
  if env.ngx_pnalloc_ok = false then .error NGX_ERROR
  -- lines 86-89
  else if env.EVP_CIPHER_CTX_new_ok = false then .error NGX_ERROR
  else
    -- lines 91-98
    match env.RAND_bytes with
    | none => .error NGX_ERROR
    | some iv =>
      if env.EVP_Init_ex_ok = false then .error NGX_ERROR
      else
        -- lines 100-114
        match L.EVP_EncryptUpdate key iv input with
        | none => .error NGX_ERROR
        | some out1 =>
          match L.EVP_EncryptFinal_ex key iv input with
          | none => .error NGX_ERROR
          | some out2 =>
            .ok { len := iv_len + out1.length + out2.length,
                  data := some (iv ++ out1 ++ out2) }

/-- How the decryption part of `ngx_quic_validate_token` ends: at label `garbage`, with
`return NGX_ERROR`, or with `total` decrypted bytes in `tdec`. -/
inductive decrypted where
  | garbage
  | error
  | plain (tdec : List Nat)
deriving DecidableEq

/-- Lines 187-226 of `ngx_quic_validate_token`: the size checks and the decryption. -/
def ngx_quic_validate_token_decrypt (L : Library) (env : Env) (key : List Nat)
    (token : ngx_str_t) : decrypted :=
  let iv_len := EVP_CIPHER_iv_length
  -- lines 193-199
  if token.len < iv_len + EVP_CIPHER_block_size then .garbage
  else if token.len > iv_len + NGX_QUIC_MAX_TOKEN_SIZE then .garbage
  -- lines 201-209
  else if env.EVP_CIPHER_CTX_new_ok = false then .error
  else if env.EVP_Init_ex_ok = false then .error
  else
    -- lines 188, 211-212: the IV, and the `token.len - iv_len` bytes after it
    let iv := token.bytes.take iv_len
    let p := token.bytes.drop iv_len
    -- lines 214-224
    match L.EVP_DecryptUpdate key iv p with
    | none => .garbage
    | some out1 =>
      match L.EVP_DecryptFinal_ex key iv p with
      | none => .garbage
      | some out2 => .plain (out1 ++ out2)

/-- What a call of `ngx_quic_validate_token` leaves behind. -/
structure validate_result where
  rc : ngx_int_t
  pkt : ngx_quic_header_t
  log : Option log_line
deriving DecidableEq

/-- Lines 170-292. -/
def ngx_quic_validate_token (L : Library) (env : Env) (c : ngx_connection_t)
    (key : List Nat) (pkt : ngx_quic_header_t) : validate_result :=
  match ngx_quic_validate_token_decrypt L env key pkt.token with
  | .garbage => ⟨NGX_ABORT, pkt, some .garbage_token⟩            -- label garbage, 281-285
  | .error => ⟨NGX_ERROR, pkt, none⟩                             -- lines 203, 208
  | .plain tdec =>
    let total := tdec.length
    -- line 228
    if total < 20 + sizeof_time_t + 2 then ⟨NGX_ABORT, pkt, some .garbage_token⟩
    else
      -- lines 232-237
      let exp := time_t_of_bytes ((tdec.drop 20).take sizeof_time_t)
      let pkt1 := { pkt with retried := decide (tdec.getD (20 + sizeof_time_t) 0 = 1) }
      -- lines 239-243
      let addr_hash := ngx_quic_address_hash L c (!pkt1.retried)
      if tdec.take 20 ≠ addr_hash then ⟨NGX_DECLINED, pkt1, some .invalid_token⟩
      else
        -- lines 245-257
        let odcid_len := tdec.getD (20 + sizeof_time_t + 1) 0
        let p := 20 + sizeof_time_t + 2
        if odcid_len ≠ 0 ∧ odcid_len > NGX_QUIC_MAX_CID_LEN then
          ⟨NGX_DECLINED, pkt1, some .invalid_token⟩
        else if odcid_len ≠ 0 ∧ total - p < odcid_len then
          ⟨NGX_DECLINED, pkt1, some .invalid_token⟩
        -- lines 259-264
        else if env.ngx_time > exp then ⟨NGX_DECLINED, pkt1, some .expired_token⟩
        -- lines 266-279
        else if odcid_len ≠ 0 then
          if env.ngx_pstrdup_ok = false then
            ⟨NGX_ERROR, { pkt1 with odcid := { len := odcid_len, data := none } }, none⟩
          else
            ⟨NGX_OK, { pkt1 with odcid := { len := odcid_len,
                                            data := some ((tdec.drop p).take odcid_len) },
                                 validated := true }, none⟩
        else ⟨NGX_OK, { pkt1 with odcid := pkt1.dcid, validated := true }, none⟩

/-! ## What the proofs ask of the cipher -/

/-- Decryption under the same key and IV inverts encryption: the output of the two
encryption calls, fed to the two decryption calls, gives the input back. -/
def Library.inverts (L : Library) : Prop :=
  ∀ key iv data out1 out2, iv.length = EVP_CIPHER_iv_length →
    L.EVP_EncryptUpdate key iv data = some out1 →
    L.EVP_EncryptFinal_ex key iv data = some out2 →
    ∃ d1 d2, L.EVP_DecryptUpdate key iv (out1 ++ out2) = some d1 ∧
      L.EVP_DecryptFinal_ex key iv (out1 ++ out2) = some d2 ∧ d1 ++ d2 = data

/-- Standard block padding: the two encryption calls together write the input length
rounded up to the next block boundary, a whole block of padding when the input ends on
one. -/
def Library.block_padding (L : Library) : Prop :=
  ∀ key iv data out1 out2, iv.length = EVP_CIPHER_iv_length →
    L.EVP_EncryptUpdate key iv data = some out1 →
    L.EVP_EncryptFinal_ex key iv data = some out2 →
    out1.length + out2.length
      = EVP_CIPHER_block_size * (data.length / EVP_CIPHER_block_size + 1)

/-! ## A small library to evaluate the functions with

CBC chaining and standard block padding as OpenSSL does them, over a stand-in block
function (xor with the key) and a stand-in digest. -/

/-- Bytewise exclusive or. -/
def xor_bytes (a b : List Nat) : List Nat :=
  List.zipWith (fun x y => x ^^^ y) a b

/-- Stand-in for the block function and its inverse: xor with the first 16 key bytes. -/
def model_block (key blk : List Nat) : List Nat :=
  xor_bytes blk ((key ++ List.replicate 16 0).take 16)

/-- Standard block padding: `n` bytes of value `n`, with `1 ≤ n ≤ 16`. -/
def pkcs7_pad (data : List Nat) : List Nat :=
  data ++ List.replicate (16 - data.length % 16) (16 - data.length % 16)

/-- Removal of the padding of a final block; `none` when the padding is malformed. -/
def pkcs7_unpad (blk : List Nat) : Option (List Nat) :=
  let n := blk.reverse.headD 0
  if n = 0 ∨ 16 < n ∨ blk.length < n then none
  else if (blk.drop (blk.length - n)).all (fun b => b == n) then
    some (blk.take (blk.length - n))
  else none

/-- CBC encryption of `n` blocks of `data`, chained from `prev`. -/
def cbc_encrypt (key : List Nat) : Nat → List Nat → List Nat → List Nat
  | 0, _, _ => []
  | n + 1, prev, data =>
    let blk := model_block key (xor_bytes (data.take 16) prev)
    blk ++ cbc_encrypt key n blk (data.drop 16)

/-- CBC decryption of `n` blocks of `data`, chained from `prev`. -/
def cbc_decrypt (key : List Nat) : Nat → List Nat → List Nat → List Nat
  | 0, _, _ => []
  | n + 1, prev, data =>
    xor_bytes (model_block key (data.take 16)) prev
      ++ cbc_decrypt key n (data.take 16) (data.drop 16)

/-- `EVP_EncryptUpdate` of the model: the ciphertext of the whole blocks of the input. -/
def model_EncryptUpdate (key iv data : List Nat) : Option (List Nat) :=
  some ((cbc_encrypt key (data.length / 16 + 1) iv (pkcs7_pad data)).take
    (16 * (data.length / 16)))

/-- `EVP_EncryptFinal_ex` of the model: the ciphertext of the padded last block. -/
def model_EncryptFinal_ex (key iv data : List Nat) : Option (List Nat) :=
  some ((cbc_encrypt key (data.length / 16 + 1) iv (pkcs7_pad data)).drop
    (16 * (data.length / 16)))

/-- `EVP_DecryptUpdate` of the model: the plaintext of the whole blocks of the input, the
last one held back when the input ends on a block boundary. -/
def model_DecryptUpdate (key iv data : List Nat) : Option (List Nat) :=
  some ((cbc_decrypt key (data.length / 16) iv data).take
    (if data.length % 16 = 0 then data.length - 16 else data.length))

/-- `EVP_DecryptFinal_ex` of the model: fails on a trailing part block and on malformed
padding, and gives the held back block without its padding otherwise. -/
def model_DecryptFinal_ex (key iv data : List Nat) : Option (List Nat) :=
  if data.length % 16 ≠ 0 ∨ data.length = 0 then none
  else pkcs7_unpad ((cbc_decrypt key (data.length / 16) iv data).drop (data.length - 16))

/-- Stand-in digest of 20 bytes. -/
def model_sha1 (m : List Nat) : List Nat :=
  (List.range 20).map (fun i => m.foldl (fun acc b => (acc * (i + 2) + b) % 251) (i + 7))

/-- The library the examples are evaluated with. -/
def model_library : Library where
  NGX_HAVE_INET6 := true
  ngx_sha1 := model_sha1
  ngx_sha1_length := by intro m; simp [model_sha1]
  EVP_EncryptUpdate := model_EncryptUpdate
  EVP_EncryptFinal_ex := model_EncryptFinal_ex
  EVP_DecryptUpdate := model_DecryptUpdate
  EVP_DecryptFinal_ex := model_DecryptFinal_ex

/-- An initialisation vector for the examples. -/
def model_iv : List Nat := [11, 22, 33, 44, 55, 66, 77, 88, 99, 110, 121, 132, 143, 154, 165, 176]

/-- A key of 32 bytes for the examples. -/
def model_key : List Nat :=
  [1, 2, 3, 4, 5, 6, 7, 8, 9, 10, 11, 12, 13, 14, 15, 16,
   17, 18, 19, 20, 21, 22, 23, 24, 25, 26, 27, 28, 29, 30, 31, 32]

/-- Surroundings in which every allocation and cipher context call succeeds, at the given
clock value. -/
def env_at (now : Int) : Env where
  ngx_time := now
  ngx_pnalloc_ok := true
  ngx_pstrdup_ok := true
  EVP_CIPHER_CTX_new_ok := true
  EVP_Init_ex_ok := true
  RAND_bytes := some model_iv
  RAND_bytes_length := by intro iv h; cases h; rfl

/-- Surroundings as `env_at`, in which the pool copy `ngx_pstrdup` fails. -/
def env_no_pool (now : Int) : Env where
  ngx_time := now
  ngx_pnalloc_ok := true
  ngx_pstrdup_ok := false
  EVP_CIPHER_CTX_new_ok := true
  EVP_Init_ex_ok := true
  RAND_bytes := some model_iv
  RAND_bytes_length := by intro iv h; cases h; rfl

/-- An IPv4 socket address in the layout of Linux: family 2, port in network order,
four address bytes, eight bytes of zero. -/
def sockaddr_in (a b c d port : Nat) : sockaddr where
  sa_family := AF_INET
  raw := [2, 0, port / 256 % 256, port % 256, a, b, c, d, 0, 0, 0, 0, 0, 0, 0, 0]
  sin_addr := [a, b, c, d]
  sin6_addr := [0, 0, 0, 0, 0, 0, 0, 0]

/-- A connection from 203.0.113.5, port 443. -/
def conn_5_443 : ngx_connection_t := ⟨sockaddr_in 203 0 113 5 443, 16⟩
/-- A connection from 203.0.113.5, port 50000. -/
def conn_5_50000 : ngx_connection_t := ⟨sockaddr_in 203 0 113 5 50000, 16⟩
/-- A connection from 203.0.113.6, port 443. -/
def conn_6_443 : ngx_connection_t := ⟨sockaddr_in 203 0 113 6 443, 16⟩

/-- The connection id "abcd1234". -/
def cid_abcd1234 : ngx_str_t := ⟨8, some [97, 98, 99, 100, 49, 50, 51, 52]⟩

/-- The destination connection id of the packets of the examples. -/
def dcid_example : ngx_str_t := ⟨4, some [201, 202, 203, 204]⟩

/-- A packet header carrying the given token, nothing validated yet. -/
def pkt_with (token : ngx_str_t) : ngx_quic_header_t where
  token := token
  dcid := dcid_example
  odcid := ⟨0, none⟩
  retried := false
  validated := false

/-- The token the model library makes of a plaintext, under `model_key` and `model_iv`. -/
def token_of_plain (plain : List Nat) : ngx_str_t :=
  let body := (model_EncryptUpdate model_key model_iv plain).getD []
    ++ (model_EncryptFinal_ex model_key model_iv plain).getD []
  ⟨16 + body.length, some (model_iv ++ body)⟩

/-- The retry token of the scenario: issued to 203.0.113.5:443 for the original connection
id "abcd1234", expiring at 1010. -/
def retry_token_example : ngx_str_t :=
  match ngx_quic_new_token model_library (env_at 1000) conn_5_443 model_key
      (some cid_abcd1234) 1010 1 with
  | .ok token => token
  | .error _ => ⟨0, none⟩

/-- A token without retry flag and without id, issued to 203.0.113.5:443, expiring at
1010. -/
def new_token_example : ngx_str_t :=
  match ngx_quic_new_token model_library (env_at 1000) conn_5_443 model_key none 1010 0 with
  | .ok token => token
  | .error _ => ⟨0, none⟩

/-- A plaintext for 203.0.113.5:443 whose id length byte says 5 with 2 bytes left. -/
def plain_truncated_id : List Nat :=
  ngx_quic_address_hash model_library conn_5_443 false ++ time_t_bytes 1010 ++ [1, 5, 1, 2]

/-- A plaintext for 203.0.113.5:443 whose id length byte says 21, with 21 bytes left. -/
def plain_long_id : List Nat :=
  ngx_quic_address_hash model_library conn_5_443 false ++ time_t_bytes 1010 ++ [1, 21]
    ++ List.replicate 21 7

/-- An original connection id of 35 bytes. -/
def cid_35 : ngx_str_t := ⟨35, some (List.replicate 35 7)⟩

/-- A plaintext for 203.0.113.5 with the port left out, flag byte 2 and no id. -/
def plain_flag_2 : List Nat :=
  ngx_quic_address_hash model_library conn_5_443 true ++ time_t_bytes 1010 ++ [2, 0]

/-- A plaintext for 203.0.113.5:443 with an id of 2 bytes and nothing after it. -/
def plain_id_2 : List Nat :=
  ngx_quic_address_hash model_library conn_5_443 false ++ time_t_bytes 1010 ++ [1, 2, 7, 8]

/-- The plaintext `plain_id_2` with 5 more bytes after the id. -/
def plain_id_2_trailing : List Nat :=
  plain_id_2 ++ [9, 9, 9, 9, 9]

/-- A packet header carrying the retry token of the scenario whose `odcid` already points
to four bytes. -/
def pkt_odcid_set : ngx_quic_header_t :=
  { pkt_with retry_token_example with odcid := ⟨4, some [9, 9, 9, 9]⟩ }

/-- A connection from a Unix-domain socket address: family 1 and a path. -/
def conn_unix : ngx_connection_t :=
  ⟨⟨1, [1, 0, 47, 116, 109, 112, 47, 113, 0], [109, 112, 47, 113], [0]⟩, 9⟩

/-! ## The allocation of the token, the bound on decryption, the reset token -/

/-- Line 80 of `ngx_quic_new_token`: the number of bytes asked of the pool for a plaintext
of `len` bytes. -/
def ngx_quic_new_token_alloc (len : Nat) : Nat :=
  EVP_CIPHER_iv_length + len + EVP_CIPHER_block_size

/-- Decryption gives no more bytes than it is fed: the two decryption calls together
write at most as many bytes as the ciphertext has. -/
def Library.decrypt_bounded (L : Library) : Prop :=
  ∀ key iv data d1 d2,
    L.EVP_DecryptUpdate key iv data = some d1 →
    L.EVP_DecryptFinal_ex key iv data = some d2 →
    d1.length + d2.length ≤ data.length

/-- What `ngx_quic_new_sr_token` takes from the headers and the protection code, none of
them in this file: the two lengths, and `ngx_quic_derive_key` as the function from the
label, the secret, the salt and the length asked for to the bytes it writes to `out`, or
`none` when it does not return `NGX_OK`. -/
structure Protection where
  NGX_QUIC_SR_KEY_LEN : Nat
  NGX_QUIC_SR_TOKEN_LEN : Nat
  ngx_quic_derive_key : String → ngx_str_t → ngx_str_t → Nat → Option (List Nat)

/-- Lines 22-45. The result is `.ok token` for `NGX_OK` with the bytes stored at `token`,
and `.error rc` for another return code. The connection gives the log only. -/
def ngx_quic_new_sr_token (P : Protection) (_c : ngx_connection_t) (cid : ngx_str_t)
    (secret : Option (List Nat)) : Except ngx_int_t (List Nat) :=
  -- lines 28-29
  let tmp : ngx_str_t := ⟨P.NGX_QUIC_SR_KEY_LEN, secret⟩
  -- lines 31-36
  match P.ngx_quic_derive_key "sr_token_key" tmp cid P.NGX_QUIC_SR_TOKEN_LEN with
  | none => .error NGX_ERROR
  | some token => .ok token

/-- A stand-in key derivation for the examples: it mixes the label length, the secret and
the salt into `len` bytes, and fails without a secret. -/
def model_derive_key (label : String) (secret salt : ngx_str_t) (len : Nat) :
    Option (List Nat) :=
  match secret.data with
  | none => none
  | some s =>
    some ((List.range len).map (fun i =>
      (salt.bytes ++ s.take secret.len).foldl (fun acc b => (acc * (i + 3) + b) % 251)
        (label.length + i)))

/-- The lengths and key derivation the examples are evaluated with: a secret of 32 bytes,
a reset token of 16. -/
def model_protection : Protection := ⟨32, 16, model_derive_key⟩

/-! ## Lemmas on the representation of `time_t` -/

theorem time_t_bytes_length (t : Int) : (time_t_bytes t).length = 8 := by
  simp [time_t_bytes]

theorem time_t_of_bytes_bytes (t : Int) (h : time_t_range t) :
    time_t_of_bytes (time_t_bytes t) = t := by
  obtain ⟨h1, h2⟩ := h
  have hn : ((t % 18446744073709551616).toNat : Int) = t % 18446744073709551616 :=
    Int.toNat_of_nonneg (Int.emod_nonneg _ (by norm_num))
  generalize (t % 18446744073709551616).toNat = n at hn
  simp only [time_t_of_bytes, time_t_bytes, List.foldr_cons, List.foldr_nil]
  split_ifs with hlt <;> omega

/-! ## Lemmas on the steps of `ngx_quic_validate_token` -/

theorem validate_of_garbage (L : Library) (env : Env) (c : ngx_connection_t) (key : List Nat)
    (pkt : ngx_quic_header_t)
    (h : ngx_quic_validate_token_decrypt L env key pkt.token = .garbage) :
    ngx_quic_validate_token L env c key pkt = ⟨NGX_ABORT, pkt, some .garbage_token⟩ := by
  simp only [ngx_quic_validate_token, h]

theorem validate_of_plain (L : Library) (env : Env) (c : ngx_connection_t) (key : List Nat)
    (pkt : ngx_quic_header_t) (tdec : List Nat)
    (h : ngx_quic_validate_token_decrypt L env key pkt.token = .plain tdec) :
    ngx_quic_validate_token L env c key pkt =
      if tdec.length < 30 then ⟨NGX_ABORT, pkt, some .garbage_token⟩
      else if tdec.take 20
          ≠ ngx_quic_address_hash L c (!decide (tdec.getD 28 0 = 1)) then
        ⟨NGX_DECLINED, { pkt with retried := decide (tdec.getD 28 0 = 1) },
          some .invalid_token⟩
      else if tdec.getD 29 0 ≠ 0 ∧ tdec.getD 29 0 > 20 then
        ⟨NGX_DECLINED, { pkt with retried := decide (tdec.getD 28 0 = 1) },
          some .invalid_token⟩
      else if tdec.getD 29 0 ≠ 0 ∧ tdec.length - 30 < tdec.getD 29 0 then
        ⟨NGX_DECLINED, { pkt with retried := decide (tdec.getD 28 0 = 1) },
          some .invalid_token⟩
      else if env.ngx_time > time_t_of_bytes ((tdec.drop 20).take 8) then
        ⟨NGX_DECLINED, { pkt with retried := decide (tdec.getD 28 0 = 1) },
          some .expired_token⟩
      else if tdec.getD 29 0 ≠ 0 then
        if env.ngx_pstrdup_ok = false then
          ⟨NGX_ERROR, { pkt with retried := decide (tdec.getD 28 0 = 1),
                                 odcid := ⟨tdec.getD 29 0, none⟩ }, none⟩
        else
          ⟨NGX_OK, { pkt with retried := decide (tdec.getD 28 0 = 1),
                              odcid := ⟨tdec.getD 29 0,
                                some ((tdec.drop 30).take (tdec.getD 29 0))⟩,
                              validated := true }, none⟩
      else
        ⟨NGX_OK, { pkt with retried := decide (tdec.getD 28 0 = 1),
                            odcid := pkt.dcid, validated := true }, none⟩ := by
  simp only [ngx_quic_validate_token, h, sizeof_time_t, NGX_QUIC_MAX_CID_LEN]

/-! ## Lemmas on the serialized plaintext -/

theorem address_hash_length (L : Library) (c : ngx_connection_t) (no_port : Bool) :
    (ngx_quic_address_hash L c no_port).length = 20 := by
  simp [ngx_quic_address_hash, L.ngx_sha1_length]

theorem bytes_length_of_valid (o : ngx_str_t) (h : o.valid) : o.bytes.length = o.len := by
  obtain ⟨bs, hbs, hle⟩ := h
  simp [ngx_str_t.bytes, hbs, hle]

/-- The id part of the plaintext: the length byte and the id bytes. -/
theorem new_token_in_eq (L : Library) (c : ngx_connection_t) (odcid : Option ngx_str_t)
    (exp : Int) (is_retry : Nat) :
    ngx_quic_new_token_in L c odcid exp is_retry
      = ngx_quic_address_hash L c (decide (is_retry = 0)) ++ time_t_bytes exp
        ++ [if is_retry ≠ 0 then 1 else 0]
        ++ ((odcid.map (fun o => o.len % 256)).getD 0
            :: (odcid.map (fun o => o.bytes)).getD []) := by
  cases odcid <;> simp [ngx_quic_new_token_in]

theorem layout_length (h t ids : List Nat) (f l : Nat) (hh : h.length = 20)
    (ht : t.length = 8) : (h ++ t ++ [f] ++ l :: ids).length = 30 + ids.length := by
  simp [hh, ht]; omega

theorem layout_take (h t ids : List Nat) (f l : Nat) (hh : h.length = 20) :
    (h ++ t ++ [f] ++ l :: ids).take 20 = h := by
  simp [List.append_assoc, List.take_left' hh]

theorem layout_time (h t ids : List Nat) (f l : Nat) (hh : h.length = 20)
    (ht : t.length = 8) : ((h ++ t ++ [f] ++ l :: ids).drop 20).take 8 = t := by
  simp [List.append_assoc, List.drop_left' hh, List.take_left' ht]

theorem layout_flag (h t ids : List Nat) (f l : Nat) (hh : h.length = 20)
    (ht : t.length = 8) : (h ++ t ++ [f] ++ l :: ids).getD 28 0 = f := by
  have e : h ++ t ++ [f] ++ l :: ids = (h ++ t) ++ (f :: l :: ids) := by simp
  rw [e, List.getD_append_right _ _ _ _ (by simp [hh, ht])]
  simp [hh, ht]

theorem layout_idlen (h t ids : List Nat) (f l : Nat) (hh : h.length = 20)
    (ht : t.length = 8) : (h ++ t ++ [f] ++ l :: ids).getD 29 0 = l := by
  have e : h ++ t ++ [f] ++ l :: ids = (h ++ t) ++ (f :: l :: ids) := by simp
  rw [e, List.getD_append_right _ _ _ _ (by simp [hh, ht])]
  simp [hh, ht]

theorem layout_id (h t ids : List Nat) (f l : Nat) (hh : h.length = 20)
    (ht : t.length = 8) : ((h ++ t ++ [f] ++ l :: ids).drop 30).take ids.length = ids := by
  have e : h ++ t ++ [f] ++ l :: ids = (h ++ t ++ [f, l]) ++ ids := by simp
  rw [e, List.drop_left' (by simp [hh, ht])]
  simp

theorem new_token_in_length (L : Library) (c : ngx_connection_t) (odcid : Option ngx_str_t)
    (exp : Int) (is_retry : Nat) (hv : ∀ o, odcid = some o → o.valid) :
    (ngx_quic_new_token_in L c odcid exp is_retry).length
      = 30 + (odcid.map (fun o => o.len)).getD 0 := by
  rw [new_token_in_eq, layout_length _ _ _ _ _ (address_hash_length L c _)
    (time_t_bytes_length exp)]
  cases odcid with
  | none => simp
  | some o => simp [bytes_length_of_valid o (hv o rfl)]

/-! ## Lemmas on issuing and decrypting -/

theorem new_token_ok (L : Library) (env : Env) (c : ngx_connection_t) (key : List Nat)
    (odcid : Option ngx_str_t) (exp : Int) (is_retry : Nat) (T : ngx_str_t)
    (hnew : ngx_quic_new_token L env c key odcid exp is_retry = .ok T) :
    ∃ iv out1 out2, iv.length = 16 ∧
      L.EVP_EncryptUpdate key iv (ngx_quic_new_token_in L c odcid exp is_retry) = some out1 ∧
      L.EVP_EncryptFinal_ex key iv (ngx_quic_new_token_in L c odcid exp is_retry) = some out2 ∧
      T = ⟨16 + out1.length + out2.length, some (iv ++ out1 ++ out2)⟩ := by
  unfold ngx_quic_new_token at hnew
  simp only at hnew
  cases hp : env.ngx_pnalloc_ok <;> simp only [hp, if_true, if_false] at hnew
  · cases hnew
  cases hc : env.EVP_CIPHER_CTX_new_ok <;> simp only [hc, if_true, if_false] at hnew
  · cases hnew
  cases hr : env.RAND_bytes with
  | none => simp only [hr] at hnew; cases hnew
  | some iv =>
    simp only [hr] at hnew
    cases hi : env.EVP_Init_ex_ok <;> simp only [hi, if_true, if_false] at hnew
    · cases hnew
    cases ho1 : L.EVP_EncryptUpdate key iv (ngx_quic_new_token_in L c odcid exp is_retry) with
    | none => simp only [ho1] at hnew; cases hnew
    | some out1 =>
      simp only [ho1] at hnew
      cases ho2 : L.EVP_EncryptFinal_ex key iv
          (ngx_quic_new_token_in L c odcid exp is_retry) with
      | none => simp only [ho2] at hnew; cases hnew
      | some out2 =>
        simp only [ho2] at hnew
        refine ⟨iv, out1, out2, env.RAND_bytes_length iv hr, ho1, ho2, ?_⟩
        simpa using (Except.ok.inj hnew).symm

theorem decrypt_of_new_token (L : Library) (hinv : L.inverts) (hpad : L.block_padding)
    (env env' : Env) (c : ngx_connection_t) (key : List Nat) (odcid : Option ngx_str_t)
    (exp : Int) (is_retry : Nat) (T : ngx_str_t)
    (hnew : ngx_quic_new_token L env c key odcid exp is_retry = .ok T)
    (hsz : (ngx_quic_new_token_in L c odcid exp is_retry).length < 64)
    (hctx : env'.EVP_CIPHER_CTX_new_ok = true) (hinit : env'.EVP_Init_ex_ok = true) :
    ngx_quic_validate_token_decrypt L env' key T
      = .plain (ngx_quic_new_token_in L c odcid exp is_retry) := by
  obtain ⟨iv, out1, out2, hiv, ho1, ho2, rfl⟩ := new_token_ok L env c key odcid exp is_retry T hnew
  have hlen := hpad key iv _ out1 out2 (by simpa using hiv) ho1 ho2
  obtain ⟨d1, d2, hd1, hd2, hd⟩ := hinv key iv _ out1 out2 (by simpa using hiv) ho1 ho2
  simp only [EVP_CIPHER_block_size] at hlen
  have hbytes : (ngx_str_t.mk (16 + out1.length + out2.length)
      (some (iv ++ out1 ++ out2))).bytes = iv ++ (out1 ++ out2) := by
    simp [ngx_str_t.bytes, hiv]
    omega
  have htake : (iv ++ (out1 ++ out2)).take 16 = iv := List.take_left' hiv
  have hdrop : (iv ++ (out1 ++ out2)).drop 16 = out1 ++ out2 := List.drop_left' hiv
  unfold ngx_quic_validate_token_decrypt
  simp only [hbytes, EVP_CIPHER_iv_length, EVP_CIPHER_block_size, NGX_QUIC_MAX_TOKEN_SIZE,
    htake, hdrop, hd1, hd2, hctx, hinit, hd]
  have h1 : ¬ (16 + out1.length + out2.length < 16 + 16) := by omega
  have h2 : ¬ (16 + out1.length + out2.length > 16 + 64) := by omega
  simp [h1, h2]

/-! ## The model library has the two properties asked of the cipher -/

theorem xor_bytes_length (a b : List Nat) :
    (xor_bytes a b).length = min a.length b.length := by
  simp [xor_bytes]

theorem xor_bytes_cancel (a b : List Nat) (h : a.length ≤ b.length) :
    xor_bytes (xor_bytes a b) b = a := by
  induction a generalizing b with
  | nil => simp [xor_bytes]
  | cons x xs ih =>
    cases b with
    | nil => simp at h
    | cons y ys =>
      have h2 : xs.length ≤ ys.length := by simpa using h
      have := ih ys h2
      simp only [xor_bytes] at this ⊢
      simp [this, Nat.xor_cancel_right]

theorem model_block_length (key blk : List Nat) (h : blk.length = 16) :
    (model_block key blk).length = 16 := by
  simp [model_block, xor_bytes_length, h]

theorem model_block_cancel (key blk : List Nat) (h : blk.length = 16) :
    model_block key (model_block key blk) = blk := by
  unfold model_block
  apply xor_bytes_cancel
  simp [h]

theorem cbc_encrypt_length (key : List Nat) (n : Nat) (prev data : List Nat)
    (hp : prev.length = 16) (hd : data.length = 16 * n) :
    (cbc_encrypt key n prev data).length = 16 * n := by
  induction n generalizing prev data with
  | zero => simp [cbc_encrypt]
  | succ n ih =>
    have hx : (xor_bytes (data.take 16) prev).length = 16 := by
      simp [xor_bytes_length, hp, hd]
    have hb := model_block_length key _ hx
    simp only [cbc_encrypt, List.length_append, hb]
    rw [ih _ _ hb (by simp [hd]; omega)]
    omega

theorem cbc_decrypt_encrypt (key : List Nat) (n : Nat) (prev data : List Nat)
    (hp : prev.length = 16) (hd : data.length = 16 * n) :
    cbc_decrypt key n prev (cbc_encrypt key n prev data) = data := by
  induction n generalizing prev data with
  | zero =>
    have : data = [] := List.eq_nil_of_length_eq_zero (by simpa using hd)
    simp [cbc_decrypt, cbc_encrypt, this]
  | succ n ih =>
    have ht : (data.take 16).length = 16 := by simp [hd]
    have hx : (xor_bytes (data.take 16) prev).length = 16 := by
      simp [xor_bytes_length, hp, hd]
    have hb := model_block_length key _ hx
    simp only [cbc_encrypt, cbc_decrypt]
    rw [List.take_left' hb, List.drop_left' hb, model_block_cancel key _ hx,
      xor_bytes_cancel _ _ (by omega), ih _ _ hb (by simp [hd]; omega)]
    exact List.take_append_drop 16 data

theorem pkcs7_pad_length (data : List Nat) :
    (pkcs7_pad data).length = 16 * (data.length / 16 + 1) := by
  simp [pkcs7_pad]; omega

theorem pkcs7_unpad_tail (d : List Nat) (n : Nat) (h0 : 0 < n) (h16 : n ≤ 16) :
    pkcs7_unpad (d ++ List.replicate n n) = some d := by
  obtain ⟨k, rfl⟩ : ∃ k, n = k + 1 := ⟨n - 1, by omega⟩
  have hhead : (d ++ List.replicate (k + 1) (k + 1)).reverse.headD 0 = k + 1 := by
    rw [List.reverse_append, List.reverse_replicate, List.replicate_succ]
    rfl
  have hdrop : (d ++ List.replicate (k + 1) (k + 1)).drop
      ((d ++ List.replicate (k + 1) (k + 1)).length - (k + 1))
        = List.replicate (k + 1) (k + 1) := by
    apply List.drop_left'
    simp
  have htake : (d ++ List.replicate (k + 1) (k + 1)).take
      ((d ++ List.replicate (k + 1) (k + 1)).length - (k + 1)) = d := by
    apply List.take_left'
    simp
  unfold pkcs7_unpad
  simp only [hhead, hdrop, htake]
  have hc : ¬ (k + 1 = 0 ∨ 16 < k + 1
      ∨ (d ++ List.replicate (k + 1) (k + 1)).length < k + 1) := by
    simp; omega
  rw [if_neg hc]
  simp

theorem model_encrypt_length (key iv data : List Nat) (hiv : iv.length = 16) :
    (cbc_encrypt key (data.length / 16 + 1) iv (pkcs7_pad data)).length
      = 16 * (data.length / 16 + 1) :=
  cbc_encrypt_length key _ iv _ hiv (pkcs7_pad_length data)

theorem model_library_block_padding : model_library.block_padding := by
  intro key iv data out1 out2 hiv h1 h2
  simp only [model_library, model_EncryptUpdate, model_EncryptFinal_ex, Option.some.injEq]
    at h1 h2
  simp only [EVP_CIPHER_block_size]
  rw [← h1, ← h2, ← List.length_append, List.take_append_drop]
  exact model_encrypt_length key iv data (by simpa using hiv)

theorem model_library_inverts : model_library.inverts := by
  intro key iv data out1 out2 hiv h1 h2
  have hiv16 : iv.length = 16 := by simpa using hiv
  simp only [model_library, model_EncryptUpdate, model_EncryptFinal_ex, Option.some.injEq]
    at h1 h2
  have hcat : out1 ++ out2 = cbc_encrypt key (data.length / 16 + 1) iv (pkcs7_pad data) := by
    rw [← h1, ← h2, List.take_append_drop]
  have hlen := model_encrypt_length key iv data hiv16
  have hdec : cbc_decrypt key (data.length / 16 + 1) iv
      (cbc_encrypt key (data.length / 16 + 1) iv (pkcs7_pad data)) = pkcs7_pad data :=
    cbc_decrypt_encrypt key _ iv _ hiv16 (pkcs7_pad_length data)
  have hq : 16 * (data.length / 16 + 1) / 16 = data.length / 16 + 1 := by omega
  have hm : 16 * (data.length / 16 + 1) % 16 = 0 := by omega
  have hsub : 16 * (data.length / 16 + 1) - 16 = 16 * (data.length / 16) := by omega
  have hle : 16 * (data.length / 16) ≤ data.length := by omega
  have hn0 : ¬ (16 * (data.length / 16 + 1) % 16 ≠ 0 ∨ 16 * (data.length / 16 + 1) = 0) := by
    omega
  have hU : model_DecryptUpdate key iv (out1 ++ out2)
      = some (data.take (16 * (data.length / 16))) := by
    unfold model_DecryptUpdate
    rw [hcat, hlen, hq, hdec, if_pos hm, hsub, pkcs7_pad, List.take_append_of_le_length hle]
  have hF : model_DecryptFinal_ex key iv (out1 ++ out2)
      = some (data.drop (16 * (data.length / 16))) := by
    unfold model_DecryptFinal_ex
    rw [hcat, hlen, hq, hdec, if_neg hn0, hsub, pkcs7_pad, List.drop_append_of_le_length hle]
    exact pkcs7_unpad_tail _ _ (by omega) (by omega)
  exact ⟨_, _, hU, hF, List.take_append_drop _ _⟩

/-! ## Validation of an issued token -/

/-- What `ngx_quic_validate_token` does with a token `ngx_quic_new_token` has issued for
connection `c`, when the token comes back on connection `c'`. -/
theorem validate_of_new_token (L : Library) (hinv : L.inverts) (hpad : L.block_padding)
    (env env' : Env) (c c' : ngx_connection_t) (key : List Nat) (odcid : Option ngx_str_t)
    (exp : Int) (is_retry : Nat) (T : ngx_str_t) (pkt : ngx_quic_header_t)
    (hexp : time_t_range exp)
    (hid : ∀ o, odcid = some o → o.valid ∧ o.len ≤ NGX_QUIC_MAX_CID_LEN)
    (hnew : ngx_quic_new_token L env c key odcid exp is_retry = .ok T)
    (htok : pkt.token = T)
    (hctx : env'.EVP_CIPHER_CTX_new_ok = true) (hinit : env'.EVP_Init_ex_ok = true) :
    ngx_quic_validate_token L env' c' key pkt =
      if ngx_quic_address_hash L c (decide (is_retry = 0))
          ≠ ngx_quic_address_hash L c' (decide (is_retry = 0)) then
        ⟨NGX_DECLINED, { pkt with retried := decide (is_retry ≠ 0) }, some .invalid_token⟩
      else if env'.ngx_time > exp then
        ⟨NGX_DECLINED, { pkt with retried := decide (is_retry ≠ 0) }, some .expired_token⟩
      else if (odcid.map (fun o => o.len)).getD 0 ≠ 0 then
        if env'.ngx_pstrdup_ok = false then
          ⟨NGX_ERROR, { pkt with retried := decide (is_retry ≠ 0),
                                 odcid := ⟨(odcid.map (fun o => o.len)).getD 0, none⟩ }, none⟩
        else
          ⟨NGX_OK, { pkt with retried := decide (is_retry ≠ 0),
                              odcid := ⟨(odcid.map (fun o => o.len)).getD 0,
                                some ((odcid.map (fun o => o.bytes)).getD [])⟩,
                              validated := true }, none⟩
      else
        ⟨NGX_OK, { pkt with retried := decide (is_retry ≠ 0), odcid := pkt.dcid,
                            validated := true }, none⟩ := by
  have hv : ∀ o, odcid = some o → o.valid := fun o ho => (hid o ho).1
  have hlen := new_token_in_length L c odcid exp is_retry hv
  have hidlen : (odcid.map (fun o => o.len)).getD 0 ≤ 20 := by
    cases odcid with
    | none => simp
    | some o => simpa using (hid o rfl).2
  have hbl : ((odcid.map (fun o => o.bytes)).getD []).length
      = (odcid.map (fun o => o.len)).getD 0 := by
    cases odcid with
    | none => simp
    | some o => simpa using bytes_length_of_valid o (hv o rfl)
  have hmod : (odcid.map (fun o => o.len % 256)).getD 0
      = (odcid.map (fun o => o.len)).getD 0 := by
    cases odcid with
    | none => simp
    | some o =>
      have := (hid o rfl).2
      simp only [NGX_QUIC_MAX_CID_LEN] at this
      simp only [Option.map_some', Option.getD_some]
      omega
  have hdec := decrypt_of_new_token L hinv hpad env env' c key odcid exp is_retry T hnew
    (by omega) hctx hinit
  rw [← htok] at hdec
  rw [validate_of_plain L env' c' key pkt _ hdec, hlen]
  have hh := address_hash_length L c (decide (is_retry = 0))
  have ht := time_t_bytes_length exp
  rw [new_token_in_eq, layout_take _ _ _ _ _ hh, layout_time _ _ _ _ _ hh ht,
    layout_flag _ _ _ _ _ hh ht, layout_idlen _ _ _ _ _ hh ht, hmod,
    time_t_of_bytes_bytes exp hexp]
  have hidb : (List.drop 30 (ngx_quic_address_hash L c (decide (is_retry = 0))
      ++ time_t_bytes exp ++ [if is_retry ≠ 0 then 1 else 0]
      ++ (odcid.map (fun o => o.len)).getD 0 :: (odcid.map (fun o => o.bytes)).getD [])).take
        ((odcid.map (fun o => o.len)).getD 0) = (odcid.map (fun o => o.bytes)).getD [] := by
    rw [← hbl]
    exact layout_id _ _ _ _ _ hh ht
  rw [hidb]
  have hflag : decide ((if is_retry ≠ 0 then 1 else 0) = 1) = decide (is_retry ≠ 0) := by
    by_cases h0 : is_retry = 0 <;> simp [h0]
  have hnp : (!decide (is_retry ≠ 0)) = decide (is_retry = 0) := by
    by_cases h0 : is_retry = 0 <;> simp [h0]
  rw [hflag, hnp]
  have h1 : ¬ (30 + (odcid.map (fun o => o.len)).getD 0 < 30) := by omega
  have h2 : ¬ ((odcid.map (fun o => o.len)).getD 0 ≠ 0
      ∧ (odcid.map (fun o => o.len)).getD 0 > 20) := by omega
  have h3 : ¬ ((odcid.map (fun o => o.len)).getD 0 ≠ 0
      ∧ 30 + (odcid.map (fun o => o.len)).getD 0 - 30
        < (odcid.map (fun o => o.len)).getD 0) := by omega
  rw [if_neg h1, if_neg h2, if_neg h3]

/-! ## The claims -/

/-- C1. Round trip: a token `ngx_quic_new_token` returns with `NGX_OK`, for an expiry time
`exp` and an original connection id that is absent or has at most 20 bytes, is accepted by
`ngx_quic_validate_token` on the same connection address while `now ≤ exp`: the call
returns `NGX_OK`, `pkt->retried` is `is_retry != 0`, `pkt->validated` is set, and
`pkt->odcid` is the original id when its length is not zero and `pkt->dcid` otherwise. The
cipher is one whose decryption inverts its encryption and that pads to the block, and the
validating call gets its cipher context and its pool copy. -/
theorem C1_round_trip (L : Library) (hinv : L.inverts) (hpad : L.block_padding)
    (env env' : Env) (c : ngx_connection_t) (key : List Nat) (odcid : Option ngx_str_t)
    (exp : Int) (is_retry : Nat) (T : ngx_str_t) (pkt : ngx_quic_header_t)
    (hexp : time_t_range exp)
    (hid : ∀ o, odcid = some o → o.valid ∧ o.len ≤ NGX_QUIC_MAX_CID_LEN)
    (hnew : ngx_quic_new_token L env c key odcid exp is_retry = .ok T)
    (htok : pkt.token = T)
    (hnow : env'.ngx_time ≤ exp)
    (hctx : env'.EVP_CIPHER_CTX_new_ok = true) (hinit : env'.EVP_Init_ex_ok = true)
    (hpool : env'.ngx_pstrdup_ok = true) :
    ngx_quic_validate_token L env' c key pkt =
      ⟨NGX_OK,
       { pkt with
           retried := decide (is_retry ≠ 0)
           validated := true
           odcid := match odcid with
             | some o => if o.len ≠ 0 then ⟨o.len, some o.bytes⟩ else pkt.dcid
             | none => pkt.dcid },
       none⟩ := by
  rw [validate_of_new_token L hinv hpad env env' c c key odcid exp is_retry T pkt hexp hid
    hnew htok hctx hinit]
  have hn : ¬ env'.ngx_time > exp := by omega
  rw [if_neg (by simp), if_neg hn]
  cases odcid with
  | none => simp
  | some o => by_cases h0 : o.len = 0 <;> simp [h0, hpool]

/-- The scenario of the retry token for 203.0.113.5:443 with id "abcd1234", validated at
once from the same address and port. -/
theorem C1_round_trip_witness :
    ngx_quic_validate_token model_library (env_at 1000) conn_5_443 model_key
        (pkt_with retry_token_example)
      = ⟨NGX_OK,
         { pkt_with retry_token_example with
             retried := true
             validated := true
             odcid := ⟨8, some [97, 98, 99, 100, 49, 50, 51, 52]⟩ },
         none⟩ :=
  C1_round_trip model_library model_library_inverts model_library_block_padding
    (env_at 1000) (env_at 1000) conn_5_443 model_key (some cid_abcd1234) 1010 1
    retry_token_example (pkt_with retry_token_example)
    ⟨by decide, by decide⟩
    (by intro o h; cases h; exact ⟨⟨_, rfl, by decide⟩, by decide⟩)
    rfl rfl (by decide) rfl rfl rfl

/-- C2. Expiration boundary: a token that decrypts to `tdec`, has the 30 bytes of the
header, carries the fingerprint of the current address and an id length in bounds is
accepted exactly when `now ≤ expires_at`: `NGX_OK` when `expires_at` is the current time,
and `NGX_DECLINED` with the line "quic expired token" and `pkt->validated` untouched when
`expires_at` is the current time minus 1 (or any earlier time). The pool copy of an id
that is not empty is taken to succeed. -/
theorem C2_expiration_boundary (L : Library) (env : Env) (c : ngx_connection_t)
    (key : List Nat) (pkt : ngx_quic_header_t) (tdec : List Nat)
    (hdec : ngx_quic_validate_token_decrypt L env key pkt.token = .plain tdec)
    (hparse : 20 + sizeof_time_t + 2 ≤ tdec.length)
    (hfp : tdec.take 20 = ngx_quic_address_hash L c (!decide (tdec.getD 28 0 = 1)))
    (hid : tdec.getD 29 0 = 0
      ∨ (tdec.getD 29 0 ≤ NGX_QUIC_MAX_CID_LEN ∧ tdec.getD 29 0 ≤ tdec.length - 30))
    (hpool : tdec.getD 29 0 ≠ 0 → env.ngx_pstrdup_ok = true) :
    ((ngx_quic_validate_token L env c key pkt).rc = NGX_OK
        ↔ env.ngx_time ≤ time_t_of_bytes ((tdec.drop 20).take 8))
    ∧ (time_t_of_bytes ((tdec.drop 20).take 8) = env.ngx_time →
        (ngx_quic_validate_token L env c key pkt).rc = NGX_OK)
    ∧ (time_t_of_bytes ((tdec.drop 20).take 8) = env.ngx_time - 1 →
        ngx_quic_validate_token L env c key pkt
          = ⟨NGX_DECLINED, { pkt with retried := decide (tdec.getD 28 0 = 1) },
              some .expired_token⟩)
    ∧ (time_t_of_bytes ((tdec.drop 20).take 8) < env.ngx_time →
        ngx_quic_validate_token L env c key pkt
          = ⟨NGX_DECLINED, { pkt with retried := decide (tdec.getD 28 0 = 1) },
              some .expired_token⟩) := by
  simp only [sizeof_time_t, NGX_QUIC_MAX_CID_LEN] at hparse hid
  have h1 : ¬ tdec.length < 30 := by omega
  have h2 : ¬ (tdec.take 20 ≠ ngx_quic_address_hash L c (!decide (tdec.getD 28 0 = 1))) := by
    simpa using hfp
  have h3 : ¬ (tdec.getD 29 0 ≠ 0 ∧ tdec.getD 29 0 > 20) := by omega
  have h4 : ¬ (tdec.getD 29 0 ≠ 0 ∧ tdec.length - 30 < tdec.getD 29 0) := by omega
  rw [validate_of_plain L env c key pkt tdec hdec, if_neg h1, if_neg h2, if_neg h3, if_neg h4]
  have hlate : time_t_of_bytes ((tdec.drop 20).take 8) < env.ngx_time →
      (if env.ngx_time > time_t_of_bytes ((tdec.drop 20).take 8) then
        (⟨NGX_DECLINED, { pkt with retried := decide (tdec.getD 28 0 = 1) },
          some .expired_token⟩ : validate_result)
      else if tdec.getD 29 0 ≠ 0 then
        if env.ngx_pstrdup_ok = false then
          ⟨NGX_ERROR, { pkt with retried := decide (tdec.getD 28 0 = 1),
                                 odcid := ⟨tdec.getD 29 0, none⟩ }, none⟩
        else
          ⟨NGX_OK, { pkt with retried := decide (tdec.getD 28 0 = 1),
                              odcid := ⟨tdec.getD 29 0,
                                some ((tdec.drop 30).take (tdec.getD 29 0))⟩,
                              validated := true }, none⟩
      else
        ⟨NGX_OK, { pkt with retried := decide (tdec.getD 28 0 = 1),
                            odcid := pkt.dcid, validated := true }, none⟩)
      = ⟨NGX_DECLINED, { pkt with retried := decide (tdec.getD 28 0 = 1) },
          some .expired_token⟩ := fun h => if_pos h
  have hin : env.ngx_time ≤ time_t_of_bytes ((tdec.drop 20).take 8) →
      (if env.ngx_time > time_t_of_bytes ((tdec.drop 20).take 8) then
        (⟨NGX_DECLINED, { pkt with retried := decide (tdec.getD 28 0 = 1) },
          some .expired_token⟩ : validate_result)
      else if tdec.getD 29 0 ≠ 0 then
        if env.ngx_pstrdup_ok = false then
          ⟨NGX_ERROR, { pkt with retried := decide (tdec.getD 28 0 = 1),
                                 odcid := ⟨tdec.getD 29 0, none⟩ }, none⟩
        else
          ⟨NGX_OK, { pkt with retried := decide (tdec.getD 28 0 = 1),
                              odcid := ⟨tdec.getD 29 0,
                                some ((tdec.drop 30).take (tdec.getD 29 0))⟩,
                              validated := true }, none⟩
      else
        ⟨NGX_OK, { pkt with retried := decide (tdec.getD 28 0 = 1),
                            odcid := pkt.dcid, validated := true }, none⟩).rc = NGX_OK := by
    intro h
    rw [if_neg (by omega)]
    by_cases h0 : tdec.getD 29 0 = 0
    · rw [if_neg (fun hne => hne h0)]
    · rw [if_pos h0, if_neg (by rw [hpool h0]; decide)]
  refine ⟨⟨fun hok => ?_, hin⟩, fun h => hin (by omega), fun h => hlate (by omega), hlate⟩
  by_contra hgt
  rw [hlate (by omega)] at hok
  simp at hok

/-- The retry token of the scenario, presented in the second in which it expires. -/
theorem C2_expiration_boundary_witness :
    (ngx_quic_validate_token model_library (env_at 1010) conn_5_443 model_key
        (pkt_with retry_token_example)).rc = NGX_OK
    ∧ (ngx_quic_validate_token model_library (env_at 1011) conn_5_443 model_key
        (pkt_with retry_token_example)).rc = NGX_DECLINED :=
  ⟨(C2_expiration_boundary model_library (env_at 1010) conn_5_443 model_key
      (pkt_with retry_token_example)
      (ngx_quic_new_token_in model_library conn_5_443 (some cid_abcd1234) 1010 1)
      rfl (by decide) (by decide) (by decide) (fun _ => rfl)).2.1 (by decide),
   congrArg validate_result.rc
    ((C2_expiration_boundary model_library (env_at 1011) conn_5_443 model_key
      (pkt_with retry_token_example)
      (ngx_quic_new_token_in model_library conn_5_443 (some cid_abcd1234) 1010 1)
      rfl (by decide) (by decide) (by decide) (fun _ => rfl)).2.2.1 (by decide))⟩

/-- C3. Address binding: for a token that decrypts to at least 30 bytes, when the
fingerprint of the current address, computed with the port left out exactly when the flag
byte is not 1, differs from the first 20 decrypted bytes, `ngx_quic_validate_token`
returns `NGX_DECLINED` with the line "quic invalid token" and changes neither
`pkt->validated` nor `pkt->odcid`, whatever the expiry time and the id length byte are. In
particular a retry token issued for one connection is declined on a connection whose
fingerprint over the whole socket address differs. -/
theorem C3_address_binding (L : Library) (env : Env) (c : ngx_connection_t)
    (key : List Nat) (pkt : ngx_quic_header_t) :
    (∀ tdec : List Nat,
      ngx_quic_validate_token_decrypt L env key pkt.token = .plain tdec →
      20 + sizeof_time_t + 2 ≤ tdec.length →
      ngx_quic_address_hash L c (!decide (tdec.getD 28 0 = 1)) ≠ tdec.take 20 →
      ngx_quic_validate_token L env c key pkt
        = ⟨NGX_DECLINED, { pkt with retried := decide (tdec.getD 28 0 = 1) },
            some .invalid_token⟩)
    ∧ (∀ (env0 : Env) (c0 : ngx_connection_t) (odcid : Option ngx_str_t) (exp : Int)
        (is_retry : Nat),
      L.inverts → L.block_padding → time_t_range exp →
      (∀ o, odcid = some o → o.valid ∧ o.len ≤ NGX_QUIC_MAX_CID_LEN) →
      is_retry ≠ 0 →
      ngx_quic_new_token L env0 c0 key odcid exp is_retry = .ok pkt.token →
      env.EVP_CIPHER_CTX_new_ok = true → env.EVP_Init_ex_ok = true →
      ngx_quic_address_hash L c false ≠ ngx_quic_address_hash L c0 false →
      ngx_quic_validate_token L env c key pkt
        = ⟨NGX_DECLINED, { pkt with retried := true }, some .invalid_token⟩) := by
  constructor
  · intro tdec hdec hparse hfp
    simp only [sizeof_time_t] at hparse
    rw [validate_of_plain L env c key pkt tdec hdec, if_neg (by omega), if_pos (Ne.symm hfp)]
  · intro env0 c0 odcid exp is_retry hinv hpad hexp hid hr hnew hctx hinit hne
    rw [validate_of_new_token L hinv hpad env0 env c0 c key odcid exp is_retry pkt.token pkt
      hexp hid hnew rfl hctx hinit]
    simp only [hr, decide_False, ne_eq, not_false_eq_true, decide_True]
    rw [if_pos (Ne.symm hne)]

/-- The retry token of the scenario, presented from 203.0.113.6:443 and from another port
of 203.0.113.5. -/
theorem C3_address_binding_witness :
    ngx_quic_validate_token model_library (env_at 1000) conn_6_443 model_key
        (pkt_with retry_token_example)
      = ⟨NGX_DECLINED, { pkt_with retry_token_example with retried := true },
          some .invalid_token⟩
    ∧ ngx_quic_validate_token model_library (env_at 1000) conn_5_50000 model_key
        (pkt_with retry_token_example)
      = ⟨NGX_DECLINED, { pkt_with retry_token_example with retried := true },
          some .invalid_token⟩ :=
  ⟨(C3_address_binding model_library (env_at 1000) conn_6_443 model_key
      (pkt_with retry_token_example)).1
      (ngx_quic_new_token_in model_library conn_5_443 (some cid_abcd1234) 1010 1)
      rfl (by decide) (by decide),
   (C3_address_binding model_library (env_at 1000) conn_5_50000 model_key
      (pkt_with retry_token_example)).2
      (env_at 1000) conn_5_443 (some cid_abcd1234) 1010 1
      model_library_inverts model_library_block_padding ⟨by decide, by decide⟩
      (by intro o h; cases h; exact ⟨⟨_, rfl, by decide⟩, by decide⟩)
      (by decide) rfl rfl rfl (by decide)⟩

/-- C4. Port independence of tokens without retry flag: with `no_port` set,
`ngx_quic_address_hash` hashes the 4 address bytes of an IPv4 socket address and the 16
address bytes of an IPv6 one (in a build with `NGX_HAVE_INET6`), so two socket addresses
of the same family with the same address bytes get the same fingerprint whatever their
ports are; and a token issued with `is_retry = 0` for one of them is accepted, `NGX_OK`,
when it comes back unexpired from the other. -/
theorem C4_port_independence (L : Library) (c c' : ngx_connection_t)
    (hsame :
      (c.sockaddr.sa_family = AF_INET ∧ c'.sockaddr.sa_family = AF_INET
        ∧ c.sockaddr.sin_addr.take 4 = c'.sockaddr.sin_addr.take 4)
      ∨ (L.NGX_HAVE_INET6 = true ∧ c.sockaddr.sa_family = AF_INET6
        ∧ c'.sockaddr.sa_family = AF_INET6
        ∧ c.sockaddr.sin6_addr.take 16 = c'.sockaddr.sin6_addr.take 16)) :
    ngx_quic_address_hash L c true
        = L.ngx_sha1 (if c.sockaddr.sa_family = AF_INET then c.sockaddr.sin_addr.take 4
            else c.sockaddr.sin6_addr.take 16)
    ∧ ngx_quic_address_hash L c true = ngx_quic_address_hash L c' true
    ∧ (∀ (env env' : Env) (key : List Nat) (odcid : Option ngx_str_t) (exp : Int)
        (pkt : ngx_quic_header_t),
      L.inverts → L.block_padding → time_t_range exp →
      (∀ o, odcid = some o → o.valid ∧ o.len ≤ NGX_QUIC_MAX_CID_LEN) →
      ngx_quic_new_token L env c key odcid exp 0 = .ok pkt.token →
      env'.EVP_CIPHER_CTX_new_ok = true → env'.EVP_Init_ex_ok = true →
      env'.ngx_pstrdup_ok = true →
      env'.ngx_time ≤ exp →
      (ngx_quic_validate_token L env' c' key pkt).rc = NGX_OK
      ∧ (ngx_quic_validate_token L env' c' key pkt).pkt.validated = true
      ∧ (ngx_quic_validate_token L env' c' key pkt).pkt.retried = false) := by
  have hform : ngx_quic_address_hash L c true
        = L.ngx_sha1 (if c.sockaddr.sa_family = AF_INET then c.sockaddr.sin_addr.take 4
            else c.sockaddr.sin6_addr.take 16) := by
    rcases hsame with ⟨h1, _, _⟩ | ⟨h6, h1, _, _⟩
    · simp [ngx_quic_address_hash, h1]
    · simp [ngx_quic_address_hash, h1, h6]
  have heq : ngx_quic_address_hash L c true = ngx_quic_address_hash L c' true := by
    rcases hsame with ⟨h1, h2, h3⟩ | ⟨h6, h1, h2, h3⟩
    · simp [ngx_quic_address_hash, h1, h2, h3]
    · simp [ngx_quic_address_hash, h1, h2, h3, h6]
  refine ⟨hform, heq, ?_⟩
  intro env env' key odcid exp pkt hinv hpad hexp hid hnew hctx hinit hpool hnow
  rw [validate_of_new_token L hinv hpad env env' c c' key odcid exp 0 pkt.token pkt
    hexp hid hnew rfl hctx hinit]
  have hn : ¬ env'.ngx_time > exp := by omega
  simp only [decide_True, ne_eq, not_true_eq_false, decide_False]
  rw [if_neg (fun hne => hne heq), if_neg hn]
  by_cases h0 : (odcid.map (fun o => o.len)).getD 0 = 0
  · rw [if_neg (fun hne => hne h0)]
    exact ⟨rfl, rfl, rfl⟩
  · rw [if_pos h0, if_neg (by rw [hpool]; decide)]
    exact ⟨rfl, rfl, rfl⟩

/-- A token without retry flag issued to 203.0.113.5:443 and presented from
203.0.113.5:50000. -/
theorem C4_port_independence_witness :
    conn_5_443.sockaddr.raw ≠ conn_5_50000.sockaddr.raw
    ∧ ngx_quic_address_hash model_library conn_5_443 true
        = ngx_quic_address_hash model_library conn_5_50000 true
    ∧ (ngx_quic_validate_token model_library (env_at 1005) conn_5_50000 model_key
        (pkt_with new_token_example)).rc = NGX_OK :=
  ⟨by decide,
   (C4_port_independence model_library conn_5_443 conn_5_50000
      (Or.inl ⟨rfl, rfl, rfl⟩)).2.1,
   ((C4_port_independence model_library conn_5_443 conn_5_50000
      (Or.inl ⟨rfl, rfl, rfl⟩)).2.2
      (env_at 1000) (env_at 1005) model_key none 1010 (pkt_with new_token_example)
      model_library_inverts model_library_block_padding ⟨by decide, by decide⟩
      (by intro o h; cases h) rfl rfl rfl rfl (by decide)).1⟩

/-- C5. Length bounds: a token shorter than `iv_length + block_size = 32` bytes or longer
than `iv_length + NGX_QUIC_MAX_TOKEN_SIZE = 80` bytes ends at label `garbage` before the
cipher is touched: `ngx_quic_validate_token` returns `NGX_ABORT`, for every library, key,
address and clock value, and leaves the packet as it was. -/
theorem C5_length_bounds (L : Library) (env : Env) (c : ngx_connection_t) (key : List Nat)
    (pkt : ngx_quic_header_t)
    (h : pkt.token.len < EVP_CIPHER_iv_length + EVP_CIPHER_block_size
      ∨ EVP_CIPHER_iv_length + NGX_QUIC_MAX_TOKEN_SIZE < pkt.token.len) :
    ngx_quic_validate_token L env c key pkt = ⟨NGX_ABORT, pkt, some .garbage_token⟩
    ∧ ngx_quic_validate_token_decrypt L env key pkt.token = .garbage
    ∧ EVP_CIPHER_iv_length + EVP_CIPHER_block_size = 32
    ∧ EVP_CIPHER_iv_length + NGX_QUIC_MAX_TOKEN_SIZE = 80 := by
  have hg : ngx_quic_validate_token_decrypt L env key pkt.token = .garbage := by
    unfold ngx_quic_validate_token_decrypt
    simp only [EVP_CIPHER_iv_length, EVP_CIPHER_block_size, NGX_QUIC_MAX_TOKEN_SIZE] at h ⊢
    rcases h with h | h
    · rw [if_pos h]
    · by_cases h' : pkt.token.len < 16 + 16
      · rw [if_pos h']
      · rw [if_neg h', if_pos h]
  exact ⟨validate_of_garbage L env c key pkt hg, hg, rfl, rfl⟩

/-- A token of 31 bytes and a token of 81 bytes. -/
theorem C5_length_bounds_witness :
    (ngx_quic_validate_token model_library (env_at 1000) conn_5_443 model_key
        (pkt_with ⟨31, some (List.replicate 31 0)⟩)).rc = NGX_ABORT
    ∧ (ngx_quic_validate_token model_library (env_at 1000) conn_5_443 model_key
        (pkt_with ⟨81, some (List.replicate 81 0)⟩)).rc = NGX_ABORT :=
  ⟨congrArg validate_result.rc
    (C5_length_bounds model_library (env_at 1000) conn_5_443 model_key
      (pkt_with ⟨31, some (List.replicate 31 0)⟩) (Or.inl (by decide))).1,
   congrArg validate_result.rc
    (C5_length_bounds model_library (env_at 1000) conn_5_443 model_key
      (pkt_with ⟨81, some (List.replicate 81 0)⟩) (Or.inr (by decide))).1⟩

/-- C6, as the code has it. An expired token and a token that fails the address check get
the same return code: a token that decrypts, binds to the address and has its id in bounds
but whose expiry time has passed is answered `NGX_DECLINED`, and so is a token that
decrypts and fails the address comparison; neither sets `pkt->validated`. The two cases
differ in the line logged only, "quic expired token" against "quic invalid token". -/
theorem C6_expired_same_code_as_mismatch (L : Library) (env1 env2 : Env)
    (c1 c2 : ngx_connection_t) (key : List Nat) (pkt1 pkt2 : ngx_quic_header_t)
    (t1 t2 : List Nat)
    (hdec1 : ngx_quic_validate_token_decrypt L env1 key pkt1.token = .plain t1)
    (hparse1 : 20 + sizeof_time_t + 2 ≤ t1.length)
    (hfp1 : t1.take 20 = ngx_quic_address_hash L c1 (!decide (t1.getD 28 0 = 1)))
    (hid1 : t1.getD 29 0 = 0
      ∨ (t1.getD 29 0 ≤ NGX_QUIC_MAX_CID_LEN ∧ t1.getD 29 0 ≤ t1.length - 30))
    (hpast : time_t_of_bytes ((t1.drop 20).take 8) < env1.ngx_time)
    (hdec2 : ngx_quic_validate_token_decrypt L env2 key pkt2.token = .plain t2)
    (hparse2 : 20 + sizeof_time_t + 2 ≤ t2.length)
    (hfp2 : t2.take 20 ≠ ngx_quic_address_hash L c2 (!decide (t2.getD 28 0 = 1))) :
    (ngx_quic_validate_token L env1 c1 key pkt1).rc = NGX_DECLINED
    ∧ (ngx_quic_validate_token L env2 c2 key pkt2).rc = NGX_DECLINED
    ∧ (ngx_quic_validate_token L env1 c1 key pkt1).rc
        = (ngx_quic_validate_token L env2 c2 key pkt2).rc
    ∧ (ngx_quic_validate_token L env1 c1 key pkt1).log = some .expired_token
    ∧ (ngx_quic_validate_token L env2 c2 key pkt2).log = some .invalid_token
    ∧ (ngx_quic_validate_token L env1 c1 key pkt1).pkt.validated = pkt1.validated
    ∧ (ngx_quic_validate_token L env2 c2 key pkt2).pkt.validated = pkt2.validated := by
  simp only [sizeof_time_t, NGX_QUIC_MAX_CID_LEN] at hparse1 hparse2 hid1
  have e1 : ngx_quic_validate_token L env1 c1 key pkt1
      = ⟨NGX_DECLINED, { pkt1 with retried := decide (t1.getD 28 0 = 1) },
          some .expired_token⟩ := by
    rw [validate_of_plain L env1 c1 key pkt1 t1 hdec1, if_neg (by omega),
      if_neg (fun hne => hne hfp1), if_neg (by omega), if_neg (by omega), if_pos hpast]
  have e2 : ngx_quic_validate_token L env2 c2 key pkt2
      = ⟨NGX_DECLINED, { pkt2 with retried := decide (t2.getD 28 0 = 1) },
          some .invalid_token⟩ := by
    rw [validate_of_plain L env2 c2 key pkt2 t2 hdec2, if_neg (by omega), if_pos hfp2]
  rw [e1, e2]
  exact ⟨rfl, rfl, rfl, rfl, rfl, rfl, rfl⟩

/-- The retry token of the scenario, once after its expiry and once from 203.0.113.6. -/
theorem C6_expired_same_code_as_mismatch_witness :
    (ngx_quic_validate_token model_library (env_at 1011) conn_5_443 model_key
        (pkt_with retry_token_example)).rc = NGX_DECLINED
    ∧ (ngx_quic_validate_token model_library (env_at 1000) conn_6_443 model_key
        (pkt_with retry_token_example)).rc = NGX_DECLINED :=
  have h := C6_expired_same_code_as_mismatch model_library (env_at 1011) (env_at 1000)
    conn_5_443 conn_6_443 model_key (pkt_with retry_token_example)
    (pkt_with retry_token_example)
    (ngx_quic_new_token_in model_library conn_5_443 (some cid_abcd1234) 1010 1)
    (ngx_quic_new_token_in model_library conn_5_443 (some cid_abcd1234) 1010 1)
    rfl (by decide) (by decide) (by decide) (by decide) rfl (by decide) (by decide)
  ⟨h.1, h.2.1⟩

/-- C6, as the claim has it, fails: the retry token of the scenario presented after its
expiry (logged as expired) and presented from 203.0.113.6 (logged as invalid) give the
caller the same return code and the same packet header. -/
theorem C6_counterexample :
    (ngx_quic_validate_token model_library (env_at 1011) conn_5_443 model_key
        (pkt_with retry_token_example)).log = some .expired_token
    ∧ (ngx_quic_validate_token model_library (env_at 1000) conn_6_443 model_key
        (pkt_with retry_token_example)).log = some .invalid_token
    ∧ ¬ ((ngx_quic_validate_token model_library (env_at 1011) conn_5_443 model_key
          (pkt_with retry_token_example)).rc
        ≠ (ngx_quic_validate_token model_library (env_at 1000) conn_6_443 model_key
          (pkt_with retry_token_example)).rc)
    ∧ (ngx_quic_validate_token model_library (env_at 1011) conn_5_443 model_key
        (pkt_with retry_token_example)).pkt
      = (ngx_quic_validate_token model_library (env_at 1000) conn_6_443 model_key
        (pkt_with retry_token_example)).pkt := by
  decide

/-- C7, as the code has it. The serialized plaintext has `20 + sizeof(time_t) + 2 +
odcid.len` bytes, which is within `NGX_QUIC_MAX_TOKEN_SIZE = 64` exactly when the id has at
most 34 bytes, and at most 50 for every id within `NGX_QUIC_MAX_CID_LEN = 20`. Nothing
compares that length with the capacity, so the bound is the one the caller keeps on the
id. -/
theorem C7_serialized_capacity (L : Library) (c : ngx_connection_t)
    (odcid : Option ngx_str_t) (exp : Int) (is_retry : Nat)
    (hv : ∀ o, odcid = some o → o.valid) :
    (ngx_quic_new_token_in L c odcid exp is_retry).length
        = 20 + sizeof_time_t + 2 + (odcid.map (fun o => o.len)).getD 0
    ∧ ((ngx_quic_new_token_in L c odcid exp is_retry).length ≤ NGX_QUIC_MAX_TOKEN_SIZE
        ↔ (odcid.map (fun o => o.len)).getD 0 ≤ 34)
    ∧ ((odcid.map (fun o => o.len)).getD 0 ≤ NGX_QUIC_MAX_CID_LEN →
        (ngx_quic_new_token_in L c odcid exp is_retry).length ≤ 50) := by
  have hlen := new_token_in_length L c odcid exp is_retry hv
  simp only [sizeof_time_t, NGX_QUIC_MAX_TOKEN_SIZE, NGX_QUIC_MAX_CID_LEN]
  exact ⟨by omega, by omega, by omega⟩

/-- The plaintext for the id "abcd1234" has 38 bytes. -/
theorem C7_serialized_capacity_witness :
    (ngx_quic_new_token_in model_library conn_5_443 (some cid_abcd1234) 1010 1).length
      = 20 + sizeof_time_t + 2 + 8 :=
  (C7_serialized_capacity model_library conn_5_443 (some cid_abcd1234) 1010 1
    (by intro o h; cases h; exact ⟨_, rfl, by decide⟩)).1

/-- C7, as the claim has it, fails: for an id of 35 bytes the stores of lines 59-69 put 65
bytes from `in` on, one more than the buffer holds. -/
theorem C7_counterexample :
    cid_35.len = 35
    ∧ (ngx_quic_new_token_in model_library conn_5_443 (some cid_35) 1010 1).length = 65
    ∧ NGX_QUIC_MAX_TOKEN_SIZE < 65 := by
  decide

/-- C8. Oversized or truncated id is declined: for a token that decrypts to at least 30
bytes and carries the fingerprint of the current address, an id length byte `L` that is
not zero and is greater than `NGX_QUIC_MAX_CID_LEN = 20` or greater than `total - 30`
ends at label `bad_token`: `NGX_DECLINED` with the line "quic invalid token",
`pkt->validated` and `pkt->odcid` untouched, whatever the expiry time and the clock
are. -/
theorem C8_bad_id_declined (L : Library) (env : Env) (c : ngx_connection_t)
    (key : List Nat) (pkt : ngx_quic_header_t) (tdec : List Nat)
    (hdec : ngx_quic_validate_token_decrypt L env key pkt.token = .plain tdec)
    (hparse : 20 + sizeof_time_t + 2 ≤ tdec.length)
    (hfp : tdec.take 20 = ngx_quic_address_hash L c (!decide (tdec.getD 28 0 = 1)))
    (hL : tdec.getD 29 0 ≠ 0)
    (hbad : NGX_QUIC_MAX_CID_LEN < tdec.getD 29 0 ∨ tdec.length - 30 < tdec.getD 29 0) :
    ngx_quic_validate_token L env c key pkt
      = ⟨NGX_DECLINED, { pkt with retried := decide (tdec.getD 28 0 = 1) },
          some .invalid_token⟩ := by
  simp only [sizeof_time_t, NGX_QUIC_MAX_CID_LEN] at hparse hbad
  rw [validate_of_plain L env c key pkt tdec hdec, if_neg (by omega),
    if_neg (fun hne => hne hfp)]
  by_cases h20 : tdec.getD 29 0 > 20
  · rw [if_pos ⟨hL, h20⟩]
  · rw [if_neg (fun h => h20 h.2), if_pos ⟨hL, by omega⟩]

/-- A token from the right address whose id length byte says 5 with 2 bytes left,
unexpired. -/
theorem C8_bad_id_declined_witness :
    ngx_quic_validate_token model_library (env_at 1000) conn_5_443 model_key
        (pkt_with (token_of_plain plain_truncated_id))
      = ⟨NGX_DECLINED, { pkt_with (token_of_plain plain_truncated_id) with retried := true },
          some .invalid_token⟩ :=
  C8_bad_id_declined model_library (env_at 1000) conn_5_443 model_key
    (pkt_with (token_of_plain plain_truncated_id)) plain_truncated_id
    rfl (by decide) (by decide) (by decide) (Or.inr (by decide))

/-- C9, as the code has it. A token that decrypts to at least 30 bytes and whose id
length byte is greater than 20 or greater than the number of bytes left after the header
is answered `NGX_DECLINED`, the polite decline, with the line "quic invalid token", and
not `NGX_ABORT`; that holds whether the fingerprint matches the address or not, and
`pkt->validated` and `pkt->odcid` stay as they were. -/
theorem C9_bad_id_is_declined_not_garbage (L : Library) (env : Env) (c : ngx_connection_t)
    (key : List Nat) (pkt : ngx_quic_header_t) (tdec : List Nat)
    (hdec : ngx_quic_validate_token_decrypt L env key pkt.token = .plain tdec)
    (hparse : 20 + sizeof_time_t + 2 ≤ tdec.length)
    (hbad : NGX_QUIC_MAX_CID_LEN < tdec.getD 29 0 ∨ tdec.length - 30 < tdec.getD 29 0) :
    (ngx_quic_validate_token L env c key pkt).rc = NGX_DECLINED
    ∧ (ngx_quic_validate_token L env c key pkt).rc ≠ NGX_ABORT
    ∧ (ngx_quic_validate_token L env c key pkt).log = some .invalid_token
    ∧ (ngx_quic_validate_token L env c key pkt).pkt.validated = pkt.validated
    ∧ (ngx_quic_validate_token L env c key pkt).pkt.odcid = pkt.odcid := by
  simp only [sizeof_time_t, NGX_QUIC_MAX_CID_LEN] at hparse hbad
  have hL : tdec.getD 29 0 ≠ 0 := by omega
  have e : ngx_quic_validate_token L env c key pkt
      = ⟨NGX_DECLINED, { pkt with retried := decide (tdec.getD 28 0 = 1) },
          some .invalid_token⟩ := by
    rw [validate_of_plain L env c key pkt tdec hdec, if_neg (by omega)]
    by_cases hfp : tdec.take 20 = ngx_quic_address_hash L c (!decide (tdec.getD 28 0 = 1))
    · rw [if_neg (fun hne => hne hfp)]
      by_cases h20 : tdec.getD 29 0 > 20
      · rw [if_pos ⟨hL, h20⟩]
      · rw [if_neg (fun h => h20 h.2), if_pos ⟨hL, by omega⟩]
    · rw [if_pos hfp]
  rw [e]
  exact ⟨rfl, by simp, rfl, rfl, rfl⟩

/-- A token whose id length byte says 21, presented from an address it was not made
for. -/
theorem C9_bad_id_is_declined_not_garbage_witness :
    (ngx_quic_validate_token model_library (env_at 1000) conn_6_443 model_key
        (pkt_with (token_of_plain plain_long_id))).rc = NGX_DECLINED :=
  (C9_bad_id_is_declined_not_garbage model_library (env_at 1000) conn_6_443 model_key
    (pkt_with (token_of_plain plain_long_id)) plain_long_id
    rfl (by decide) (Or.inl (by decide))).1

/-- C9, as the claim has it, fails: a token that decrypts, matches the address
203.0.113.5:443 and declares an id of 21 bytes is answered `NGX_DECLINED`, not
`NGX_ABORT`, and logged as invalid, not as garbage. -/
theorem C9_counterexample :
    ngx_quic_validate_token_decrypt model_library (env_at 1000) model_key
        (token_of_plain plain_long_id) = .plain plain_long_id
    ∧ NGX_QUIC_MAX_CID_LEN < plain_long_id.getD 29 0
    ∧ (ngx_quic_validate_token model_library (env_at 1000) conn_5_443 model_key
        (pkt_with (token_of_plain plain_long_id))).rc ≠ NGX_ABORT
    ∧ ngx_quic_validate_token model_library (env_at 1000) conn_5_443 model_key
        (pkt_with (token_of_plain plain_long_id))
      = ⟨NGX_DECLINED, { pkt_with (token_of_plain plain_long_id) with retried := true },
          some .invalid_token⟩ := by
  decide

/-- C10. Minimum plaintext length: a token that passes the size checks and decrypts to
fewer than `20 + sizeof(time_t) + 2 = 30` bytes ends at label `garbage` before a field is
read: `ngx_quic_validate_token` returns `NGX_ABORT` for every address and clock value and
leaves the packet, `pkt->retried`, `pkt->odcid` and `pkt->validated` included, as it
was. -/
theorem C10_minimum_plaintext (L : Library) (env : Env) (c : ngx_connection_t)
    (key : List Nat) (pkt : ngx_quic_header_t) (tdec : List Nat)
    (hdec : ngx_quic_validate_token_decrypt L env key pkt.token = .plain tdec)
    (hshort : tdec.length < 20 + sizeof_time_t + 2) :
    ngx_quic_validate_token L env c key pkt = ⟨NGX_ABORT, pkt, some .garbage_token⟩
    ∧ 20 + sizeof_time_t + 2 = 30 := by
  simp only [sizeof_time_t] at hshort
  rw [validate_of_plain L env c key pkt tdec hdec, if_pos (by omega)]
  exact ⟨rfl, rfl⟩

/-- A token of 32 bytes that decrypts to 5 bytes. -/
theorem C10_minimum_plaintext_witness :
    ngx_quic_validate_token model_library (env_at 1000) conn_5_443 model_key
        (pkt_with (token_of_plain [1, 2, 3, 4, 5]))
      = ⟨NGX_ABORT, pkt_with (token_of_plain [1, 2, 3, 4, 5]), some .garbage_token⟩ :=
  (C10_minimum_plaintext model_library (env_at 1000) conn_5_443 model_key
    (pkt_with (token_of_plain [1, 2, 3, 4, 5])) [1, 2, 3, 4, 5] rfl (by decide)).1


/-- C20. Port suppression falls back for other address families: for a socket address
whose family is neither `AF_INET` nor `AF_INET6`, `ngx_quic_address_hash` gives with
`no_port` set the digest it gives with `no_port` clear, the hash of the `socklen` bytes of
the raw socket address. -/
theorem C20_other_family_fallback (L : Library) (c : ngx_connection_t)
    (h4 : c.sockaddr.sa_family ≠ AF_INET) (h6 : c.sockaddr.sa_family ≠ AF_INET6) :
    ngx_quic_address_hash L c true = ngx_quic_address_hash L c false
    ∧ ngx_quic_address_hash L c true = L.ngx_sha1 (c.sockaddr.raw.take c.socklen)
    ∧ (ngx_quic_address_hash L c true).length = 20 := by
  simp only [AF_INET, AF_INET6] at h4 h6
  refine ⟨?_, ?_, address_hash_length L c true⟩ <;>
    simp [ngx_quic_address_hash, h4, h6]

/-- A Unix-domain socket address. -/
theorem C20_other_family_fallback_witness :
    ngx_quic_address_hash model_library conn_unix true
      = ngx_quic_address_hash model_library conn_unix false :=
  (C20_other_family_fallback model_library conn_unix (by decide) (by decide)).1

/-- C19. Output buffer suffices: for a plaintext of `len` bytes, the `iv_length` bytes of
the IV and the `block_size * (len / block_size + 1)` bytes of padded ciphertext are at most
the `iv_length + len + block_size` bytes line 80 asks of the pool, with equality exactly
when `len` is a multiple of the block size; and the token a successful
`ngx_quic_new_token` returns, under a cipher with standard block padding, has exactly the
first number as its length. -/
theorem C19_output_buffer_suffices (len : Nat) :
    EVP_CIPHER_iv_length + EVP_CIPHER_block_size * (len / EVP_CIPHER_block_size + 1)
        ≤ ngx_quic_new_token_alloc len
    ∧ (EVP_CIPHER_iv_length + EVP_CIPHER_block_size * (len / EVP_CIPHER_block_size + 1)
          = ngx_quic_new_token_alloc len
        ↔ len % EVP_CIPHER_block_size = 0)
    ∧ (∀ (L : Library) (env : Env) (c : ngx_connection_t) (key : List Nat)
        (odcid : Option ngx_str_t) (exp : Int) (is_retry : Nat) (T : ngx_str_t),
      L.block_padding →
      ngx_quic_new_token L env c key odcid exp is_retry = .ok T →
      (ngx_quic_new_token_in L c odcid exp is_retry).length = len →
      T.len = EVP_CIPHER_iv_length
          + EVP_CIPHER_block_size * (len / EVP_CIPHER_block_size + 1)
      ∧ T.len ≤ ngx_quic_new_token_alloc len) := by
  simp only [ngx_quic_new_token_alloc, EVP_CIPHER_iv_length, EVP_CIPHER_block_size]
  refine ⟨by omega, by omega, ?_⟩
  intro L env c key odcid exp is_retry T hpad hnew hlen
  obtain ⟨iv, out1, out2, hiv, ho1, ho2, rfl⟩ :=
    new_token_ok L env c key odcid exp is_retry T hnew
  have h := hpad key iv _ out1 out2 (by simpa using hiv) ho1 ho2
  simp only [EVP_CIPHER_block_size, hlen] at h
  constructor <;> simp only <;> omega

/-- The retry token of the scenario: a plaintext of 38 bytes, 70 bytes asked of the pool,
64 bytes written. -/
theorem C19_output_buffer_suffices_witness :
    retry_token_example.len = 64 ∧ ngx_quic_new_token_alloc 38 = 70 :=
  ⟨((C19_output_buffer_suffices 38).2.2 model_library (env_at 1000) conn_5_443 model_key
      (some cid_abcd1234) 1010 1 retry_token_example model_library_block_padding rfl
      (by decide)).1,
   rfl⟩

theorem NGX_ABORT_ne_NGX_OK : NGX_ABORT ≠ NGX_OK := by decide

theorem NGX_ERROR_ne_NGX_OK : NGX_ERROR ≠ NGX_OK := by decide

theorem NGX_DECLINED_ne_NGX_OK : NGX_DECLINED ≠ NGX_OK := by decide

/-- C11. Acceptance postcondition: when `ngx_quic_validate_token` returns `NGX_OK`, the
token has decrypted to a plaintext `tdec`, `pkt->validated` is 1, and `pkt->odcid` is a
copy of exactly the `L` bytes that follow the id length byte of `tdec` when `L > 0` and is
`pkt->dcid` when `L = 0`; and on every other return code `pkt->validated` is as it
was. -/
theorem C11_acceptance_postcondition (L : Library) (env : Env) (c : ngx_connection_t)
    (key : List Nat) (pkt : ngx_quic_header_t) :
    ((ngx_quic_validate_token L env c key pkt).rc = NGX_OK →
      ∃ tdec, ngx_quic_validate_token_decrypt L env key pkt.token = .plain tdec
        ∧ 20 + sizeof_time_t + 2 ≤ tdec.length
        ∧ (ngx_quic_validate_token L env c key pkt).pkt.validated = true
        ∧ (tdec.getD 29 0 ≠ 0 →
            (ngx_quic_validate_token L env c key pkt).pkt.odcid
              = ⟨tdec.getD 29 0, some ((tdec.drop 30).take (tdec.getD 29 0))⟩
            ∧ ((tdec.drop 30).take (tdec.getD 29 0)).length = tdec.getD 29 0)
        ∧ (tdec.getD 29 0 = 0 →
            (ngx_quic_validate_token L env c key pkt).pkt.odcid = pkt.dcid))
    ∧ ((ngx_quic_validate_token L env c key pkt).rc ≠ NGX_OK →
        (ngx_quic_validate_token L env c key pkt).pkt.validated = pkt.validated) := by
  cases hdec : ngx_quic_validate_token_decrypt L env key pkt.token with
  | garbage =>
    rw [validate_of_garbage L env c key pkt hdec]
    exact ⟨fun h => absurd h NGX_ABORT_ne_NGX_OK, fun _ => rfl⟩
  | error =>
    have e : ngx_quic_validate_token L env c key pkt = ⟨NGX_ERROR, pkt, none⟩ := by
      simp only [ngx_quic_validate_token, hdec]
    rw [e]
    exact ⟨fun h => absurd h NGX_ERROR_ne_NGX_OK, fun _ => rfl⟩
  | plain tdec =>
    rw [validate_of_plain L env c key pkt tdec hdec]
    by_cases h1 : tdec.length < 30
    · rw [if_pos h1]
      exact ⟨fun h => absurd h NGX_ABORT_ne_NGX_OK, fun _ => rfl⟩
    rw [if_neg h1]
    by_cases h2 : tdec.take 20
        ≠ ngx_quic_address_hash L c (!decide (tdec.getD 28 0 = 1))
    · rw [if_pos h2]
      exact ⟨fun h => absurd h NGX_DECLINED_ne_NGX_OK, fun _ => rfl⟩
    rw [if_neg h2]
    by_cases h3 : tdec.getD 29 0 ≠ 0 ∧ tdec.getD 29 0 > 20
    · rw [if_pos h3]
      exact ⟨fun h => absurd h NGX_DECLINED_ne_NGX_OK, fun _ => rfl⟩
    rw [if_neg h3]
    by_cases h4 : tdec.getD 29 0 ≠ 0 ∧ tdec.length - 30 < tdec.getD 29 0
    · rw [if_pos h4]
      exact ⟨fun h => absurd h NGX_DECLINED_ne_NGX_OK, fun _ => rfl⟩
    rw [if_neg h4]
    by_cases h5 : env.ngx_time > time_t_of_bytes ((tdec.drop 20).take 8)
    · rw [if_pos h5]
      exact ⟨fun h => absurd h NGX_DECLINED_ne_NGX_OK, fun _ => rfl⟩
    rw [if_neg h5]
    by_cases h6 : tdec.getD 29 0 ≠ 0
    · rw [if_pos h6]
      by_cases h7 : env.ngx_pstrdup_ok = false
      · rw [if_pos h7]
        exact ⟨fun h => absurd h NGX_ERROR_ne_NGX_OK, fun _ => rfl⟩
      · rw [if_neg h7]
        refine ⟨fun _ => ⟨tdec, rfl, by simp only [sizeof_time_t]; omega, rfl,
          fun _ => ⟨rfl, ?_⟩, fun h0 => absurd h0 h6⟩, fun h => absurd rfl h⟩
        rw [List.length_take, List.length_drop]
        omega
    · rw [if_neg h6]
      exact ⟨fun _ => ⟨tdec, rfl, by simp only [sizeof_time_t]; omega, rfl,
        fun h0 => absurd h0 h6, fun _ => rfl⟩, fun h => absurd rfl h⟩

/-- The retry token of the scenario, accepted: `pkt->odcid` is the 8 bytes after the id
length byte. -/
theorem C11_acceptance_postcondition_witness :
    ∃ tdec, ngx_quic_validate_token_decrypt model_library (env_at 1000) model_key
        (pkt_with retry_token_example).token = .plain tdec
      ∧ 20 + sizeof_time_t + 2 ≤ tdec.length
      ∧ (ngx_quic_validate_token model_library (env_at 1000) conn_5_443 model_key
          (pkt_with retry_token_example)).pkt.validated = true
      ∧ (tdec.getD 29 0 ≠ 0 →
          (ngx_quic_validate_token model_library (env_at 1000) conn_5_443 model_key
            (pkt_with retry_token_example)).pkt.odcid
            = ⟨tdec.getD 29 0, some ((tdec.drop 30).take (tdec.getD 29 0))⟩
          ∧ ((tdec.drop 30).take (tdec.getD 29 0)).length = tdec.getD 29 0)
      ∧ (tdec.getD 29 0 = 0 →
          (ngx_quic_validate_token model_library (env_at 1000) conn_5_443 model_key
            (pkt_with retry_token_example)).pkt.odcid = (pkt_with retry_token_example).dcid) :=
  (C11_acceptance_postcondition model_library (env_at 1000) conn_5_443 model_key
    (pkt_with retry_token_example)).1 (by decide)

/-- C12. Retry flag decoding: for a plaintext of at least 30 bytes `pkt->retried` becomes
true exactly when the flag byte at offset `20 + sizeof(time_t)` is 1. Another value of the
byte is no reason for rejection: such a token is accepted, `NGX_OK` with
`pkt->retried = 0`, when its fingerprint is the one of the current address with the port
left out, its id length is in bounds and it has not expired. The pool copy of an id that
is not empty is taken to succeed. -/
theorem C12_retry_flag_decoding (L : Library) (env : Env) (c : ngx_connection_t)
    (key : List Nat) (pkt : ngx_quic_header_t) (tdec : List Nat)
    (hdec : ngx_quic_validate_token_decrypt L env key pkt.token = .plain tdec)
    (hparse : 20 + sizeof_time_t + 2 ≤ tdec.length) :
    ((ngx_quic_validate_token L env c key pkt).pkt.retried = true
        ↔ tdec.getD (20 + sizeof_time_t) 0 = 1)
    ∧ (tdec.getD (20 + sizeof_time_t) 0 ≠ 1 →
        tdec.take 20 = ngx_quic_address_hash L c true →
        (tdec.getD 29 0 = 0
          ∨ (tdec.getD 29 0 ≤ NGX_QUIC_MAX_CID_LEN ∧ tdec.getD 29 0 ≤ tdec.length - 30)) →
        env.ngx_time ≤ time_t_of_bytes ((tdec.drop 20).take 8) →
        (tdec.getD 29 0 ≠ 0 → env.ngx_pstrdup_ok = true) →
        (ngx_quic_validate_token L env c key pkt).rc = NGX_OK
        ∧ (ngx_quic_validate_token L env c key pkt).pkt.retried = false
        ∧ (ngx_quic_validate_token L env c key pkt).pkt.validated = true) := by
  simp only [sizeof_time_t, NGX_QUIC_MAX_CID_LEN] at hparse ⊢
  have h1 : ¬ tdec.length < 30 := by omega
  rw [validate_of_plain L env c key pkt tdec hdec, if_neg h1]
  constructor
  · by_cases h2 : tdec.take 20
        ≠ ngx_quic_address_hash L c (!decide (tdec.getD 28 0 = 1))
    · rw [if_pos h2]; simp
    rw [if_neg h2]
    by_cases h3 : tdec.getD 29 0 ≠ 0 ∧ tdec.getD 29 0 > 20
    · rw [if_pos h3]; simp
    rw [if_neg h3]
    by_cases h4 : tdec.getD 29 0 ≠ 0 ∧ tdec.length - 30 < tdec.getD 29 0
    · rw [if_pos h4]; simp
    rw [if_neg h4]
    by_cases h5 : env.ngx_time > time_t_of_bytes ((tdec.drop 20).take 8)
    · rw [if_pos h5]; simp
    rw [if_neg h5]
    by_cases h6 : tdec.getD 29 0 ≠ 0
    · rw [if_pos h6]
      by_cases h7 : env.ngx_pstrdup_ok = false
      · rw [if_pos h7]; simp
      · rw [if_neg h7]; simp
    · rw [if_neg h6]; simp
  · intro hflag hfp hid hnow hpool
    have hd : decide (tdec.getD 28 0 = 1) = false := by simpa using hflag
    rw [hd]
    have h2 : ¬ (tdec.take 20 ≠ ngx_quic_address_hash L c (!false)) := by
      simpa using hfp
    have h3 : ¬ (tdec.getD 29 0 ≠ 0 ∧ tdec.getD 29 0 > 20) := by omega
    have h4 : ¬ (tdec.getD 29 0 ≠ 0 ∧ tdec.length - 30 < tdec.getD 29 0) := by omega
    have h5 : ¬ (env.ngx_time > time_t_of_bytes ((tdec.drop 20).take 8)) := by omega
    rw [if_neg h2, if_neg h3, if_neg h4, if_neg h5]
    by_cases h6 : tdec.getD 29 0 = 0
    · rw [if_neg (fun hne => hne h6)]
      exact ⟨rfl, rfl, rfl⟩
    · rw [if_pos h6, if_neg (by rw [hpool h6]; decide)]
      exact ⟨rfl, rfl, rfl⟩

/-- A token with flag byte 2 and the fingerprint of 203.0.113.5 without port, presented
from port 50000 before it expires. -/
theorem C12_retry_flag_decoding_witness :
    (ngx_quic_validate_token model_library (env_at 1000) conn_5_50000 model_key
        (pkt_with (token_of_plain plain_flag_2))).rc = NGX_OK
    ∧ (ngx_quic_validate_token model_library (env_at 1000) conn_5_50000 model_key
        (pkt_with (token_of_plain plain_flag_2))).pkt.retried = false :=
  have h := (C12_retry_flag_decoding model_library (env_at 1000) conn_5_50000 model_key
    (pkt_with (token_of_plain plain_flag_2)) plain_flag_2 rfl (by decide)).2
    (by decide) (by decide) (Or.inl (by decide)) (by decide) (fun _ => rfl)
  ⟨h.1, h.2.1⟩

/-- C13. Stateless reset token: `ngx_quic_new_sr_token` is a function of the connection
id and the secret alone. It returns `NGX_OK` with the output of the key derivation for
the label "sr_token_key", the secret with length `NGX_QUIC_SR_KEY_LEN`, the connection id
as salt and the length `NGX_QUIC_SR_TOKEN_LEN`; it returns `NGX_ERROR` exactly when the
key derivation fails; and two calls with the same connection id and secret, on whatever
connections, give the same result. -/
theorem C13_sr_token_deterministic (P : Protection) (c : ngx_connection_t) (cid : ngx_str_t)
    (secret : Option (List Nat)) :
    (∀ token, P.ngx_quic_derive_key "sr_token_key" ⟨P.NGX_QUIC_SR_KEY_LEN, secret⟩ cid
          P.NGX_QUIC_SR_TOKEN_LEN = some token →
        ngx_quic_new_sr_token P c cid secret = .ok token)
    ∧ (ngx_quic_new_sr_token P c cid secret = .error NGX_ERROR
        ↔ P.ngx_quic_derive_key "sr_token_key" ⟨P.NGX_QUIC_SR_KEY_LEN, secret⟩ cid
            P.NGX_QUIC_SR_TOKEN_LEN = none)
    ∧ (∀ rc, ngx_quic_new_sr_token P c cid secret = .error rc → rc = NGX_ERROR)
    ∧ (∀ (c' : ngx_connection_t) (cid' : ngx_str_t) (secret' : Option (List Nat)),
        cid' = cid → secret' = secret →
        ngx_quic_new_sr_token P c' cid' secret' = ngx_quic_new_sr_token P c cid secret) := by
  refine ⟨?_, ?_, ?_, ?_⟩
  · intro token h
    simp only [ngx_quic_new_sr_token, h]
  · cases h : P.ngx_quic_derive_key "sr_token_key" ⟨P.NGX_QUIC_SR_KEY_LEN, secret⟩ cid
        P.NGX_QUIC_SR_TOKEN_LEN with
    | none => simp only [ngx_quic_new_sr_token, h]
    | some token =>
      simp only [ngx_quic_new_sr_token, h]
      exact ⟨fun hh => (by cases hh), fun hh => (by cases hh)⟩
  · intro rc
    cases h : P.ngx_quic_derive_key "sr_token_key" ⟨P.NGX_QUIC_SR_KEY_LEN, secret⟩ cid
        P.NGX_QUIC_SR_TOKEN_LEN with
    | none =>
      simp only [ngx_quic_new_sr_token, h]
      intro hrc
      exact (Except.error.inj hrc).symm
    | some token =>
      simp only [ngx_quic_new_sr_token, h]
      intro hh
      cases hh
  · intro c' cid' secret' h1 h2
    rw [h1, h2]
    rfl

/-- The reset token of the id "abcd1234" under the model key, from two connections, and
the failure without a secret. -/
theorem C13_sr_token_deterministic_witness :
    ngx_quic_new_sr_token model_protection conn_6_443 cid_abcd1234 (some model_key)
      = ngx_quic_new_sr_token model_protection conn_5_443 cid_abcd1234 (some model_key)
    ∧ (∃ token, ngx_quic_new_sr_token model_protection conn_5_443 cid_abcd1234
        (some model_key) = .ok token ∧ token.length = 16)
    ∧ (ngx_quic_new_sr_token model_protection conn_5_443 cid_abcd1234 none
        = .error NGX_ERROR) :=
  ⟨(C13_sr_token_deterministic model_protection conn_5_443 cid_abcd1234
      (some model_key)).2.2.2 conn_6_443 cid_abcd1234 (some model_key) rfl rfl,
   ⟨_, (C13_sr_token_deterministic model_protection conn_5_443 cid_abcd1234
      (some model_key)).1 _ rfl, by decide⟩,
   (C13_sr_token_deterministic model_protection conn_5_443 cid_abcd1234 none).2.1.mpr rfl⟩

/-- C14. Serialized layout: for an id absent or of `n ≤ 20` bytes, the plaintext
`ngx_quic_new_token` hands to the cipher is the 20 bytes of the fingerprint computed with
the port left out exactly when `is_retry` is 0, then the `sizeof(time_t)` bytes of `exp`
as they lie in memory, then one byte that is 1 when `is_retry` is not 0 and 0 otherwise,
then one byte `n` (0 for an absent id), then the `n` bytes of the id: `20 +
sizeof(time_t) + 2 + n` bytes, at most 50 and within the 64 of the buffer. -/
theorem C14_serialized_layout (L : Library) (c : ngx_connection_t)
    (odcid : Option ngx_str_t) (exp : Int) (is_retry : Nat)
    (hid : ∀ o, odcid = some o → o.valid ∧ o.len ≤ NGX_QUIC_MAX_CID_LEN) :
    ngx_quic_new_token_in L c odcid exp is_retry
        = ngx_quic_address_hash L c (decide (is_retry = 0)) ++ time_t_bytes exp
          ++ [if is_retry ≠ 0 then 1 else 0]
          ++ [(odcid.map (fun o => o.len)).getD 0]
          ++ (odcid.map (fun o => o.bytes)).getD []
    ∧ (ngx_quic_address_hash L c (decide (is_retry = 0))).length = 20
    ∧ (time_t_bytes exp).length = sizeof_time_t
    ∧ (time_t_range exp → time_t_of_bytes (time_t_bytes exp) = exp)
    ∧ ((odcid.map (fun o => o.bytes)).getD []).length = (odcid.map (fun o => o.len)).getD 0
    ∧ (ngx_quic_new_token_in L c odcid exp is_retry).length
        = 20 + sizeof_time_t + 2 + (odcid.map (fun o => o.len)).getD 0
    ∧ (ngx_quic_new_token_in L c odcid exp is_retry).length ≤ 50
    ∧ (ngx_quic_new_token_in L c odcid exp is_retry).length ≤ NGX_QUIC_MAX_TOKEN_SIZE
    ∧ (∀ (env : Env) (key : List Nat) (T : ngx_str_t),
        ngx_quic_new_token L env c key odcid exp is_retry = .ok T →
        ∃ iv out1 out2, iv.length = 16
          ∧ L.EVP_EncryptUpdate key iv
              (ngx_quic_new_token_in L c odcid exp is_retry) = some out1
          ∧ L.EVP_EncryptFinal_ex key iv
              (ngx_quic_new_token_in L c odcid exp is_retry) = some out2
          ∧ T = ⟨16 + out1.length + out2.length, some (iv ++ out1 ++ out2)⟩) := by
  have hv : ∀ o, odcid = some o → o.valid := fun o ho => (hid o ho).1
  have hlen := new_token_in_length L c odcid exp is_retry hv
  have hn : (odcid.map (fun o => o.len)).getD 0 ≤ 20 := by
    cases odcid with
    | none => simp
    | some o => simpa using (hid o rfl).2
  have hmod : (odcid.map (fun o => o.len % 256)).getD 0
      = (odcid.map (fun o => o.len)).getD 0 := by
    cases odcid with
    | none => simp
    | some o =>
      have := (hid o rfl).2
      simp only [NGX_QUIC_MAX_CID_LEN] at this
      simp only [Option.map_some', Option.getD_some]
      omega
  have hbl : ((odcid.map (fun o => o.bytes)).getD []).length
      = (odcid.map (fun o => o.len)).getD 0 := by
    cases odcid with
    | none => simp
    | some o => simpa using bytes_length_of_valid o (hv o rfl)
  refine ⟨?_, address_hash_length L c _, time_t_bytes_length exp,
    time_t_of_bytes_bytes exp, hbl, ?_, ?_, ?_, ?_⟩
  · rw [new_token_in_eq, hmod]
    simp
  · simp only [sizeof_time_t]; omega
  · omega
  · simp only [NGX_QUIC_MAX_TOKEN_SIZE]; omega
  · intro env key T hnew
    exact new_token_ok L env c key odcid exp is_retry T hnew

/-- The plaintext of the retry token of the scenario, byte by byte. -/
theorem C14_serialized_layout_witness :
    ngx_quic_new_token_in model_library conn_5_443 (some cid_abcd1234) 1010 1
      = ngx_quic_address_hash model_library conn_5_443 false
        ++ [242, 3, 0, 0, 0, 0, 0, 0] ++ [1] ++ [8]
        ++ [97, 98, 99, 100, 49, 50, 51, 52] :=
  (C14_serialized_layout model_library conn_5_443 (some cid_abcd1234) 1010 1
    (by intro o h; cases h; exact ⟨⟨_, rfl, by decide⟩, by decide⟩)).1

/-- C15. Issued token length: under a cipher with standard block padding and block and
IV size 16, the token a successful `ngx_quic_new_token` returns for an id absent or of at
most 20 bytes has `token->len` equal to `iv_length` plus the plaintext length rounded up
to the next block boundary, padding included; that is at least `iv_length + block_size =
32` and at most `iv_length + NGX_QUIC_MAX_TOKEN_SIZE = 80`, so the token passes both size
checks of `ngx_quic_validate_token`. -/
theorem C15_issued_token_length (L : Library) (hpad : L.block_padding) (env : Env)
    (c : ngx_connection_t) (key : List Nat) (odcid : Option ngx_str_t) (exp : Int)
    (is_retry : Nat) (T : ngx_str_t)
    (hid : ∀ o, odcid = some o → o.valid ∧ o.len ≤ NGX_QUIC_MAX_CID_LEN)
    (hnew : ngx_quic_new_token L env c key odcid exp is_retry = .ok T) :
    T.len = EVP_CIPHER_iv_length + EVP_CIPHER_block_size
        * ((ngx_quic_new_token_in L c odcid exp is_retry).length / EVP_CIPHER_block_size + 1)
    ∧ T.valid
    ∧ EVP_CIPHER_iv_length + EVP_CIPHER_block_size ≤ T.len
    ∧ T.len ≤ EVP_CIPHER_iv_length + NGX_QUIC_MAX_TOKEN_SIZE
    ∧ ¬ (T.len < EVP_CIPHER_iv_length + EVP_CIPHER_block_size)
    ∧ ¬ (T.len > EVP_CIPHER_iv_length + NGX_QUIC_MAX_TOKEN_SIZE)
    ∧ (∀ env' : Env, env'.EVP_CIPHER_CTX_new_ok = true → env'.EVP_Init_ex_ok = true →
        (L.EVP_DecryptUpdate key (T.bytes.take 16) (T.bytes.drop 16)).isSome = true →
        (L.EVP_DecryptFinal_ex key (T.bytes.take 16) (T.bytes.drop 16)).isSome = true →
        ngx_quic_validate_token_decrypt L env' key T ≠ .garbage) := by
  have hv : ∀ o, odcid = some o → o.valid := fun o ho => (hid o ho).1
  have hlen := new_token_in_length L c odcid exp is_retry hv
  have hn : (odcid.map (fun o => o.len)).getD 0 ≤ 20 := by
    cases odcid with
    | none => simp
    | some o => simpa using (hid o rfl).2
  obtain ⟨iv, out1, out2, hiv, ho1, ho2, rfl⟩ :=
    new_token_ok L env c key odcid exp is_retry T hnew
  have h := hpad key iv _ out1 out2 (by simpa using hiv) ho1 ho2
  simp only [EVP_CIPHER_block_size, EVP_CIPHER_iv_length, NGX_QUIC_MAX_TOKEN_SIZE] at h ⊢
  refine ⟨by omega, ⟨_, rfl, by simp [hiv]; omega⟩, by omega, by omega, by omega,
    by omega, ?_⟩
  intro env' hctx hinit hu hf
  have h1 : ¬ (16 + out1.length + out2.length < 16 + 16) := by omega
  have h2 : ¬ (16 + out1.length + out2.length > 16 + 64) := by omega
  obtain ⟨d1, hd1⟩ := Option.isSome_iff_exists.mp hu
  obtain ⟨d2, hd2⟩ := Option.isSome_iff_exists.mp hf
  unfold ngx_quic_validate_token_decrypt
  simp only [EVP_CIPHER_block_size, EVP_CIPHER_iv_length, NGX_QUIC_MAX_TOKEN_SIZE, if_neg h1,
    if_neg h2, hctx, hinit, hd1, hd2]
  simp

/-- The retry token of the scenario has 16 + 48 bytes. -/
theorem C15_issued_token_length_witness :
    retry_token_example.len = EVP_CIPHER_iv_length + EVP_CIPHER_block_size
        * ((ngx_quic_new_token_in model_library conn_5_443 (some cid_abcd1234) 1010 1).length
            / EVP_CIPHER_block_size + 1)
    ∧ retry_token_example.len = 64 :=
  ⟨(C15_issued_token_length model_library model_library_block_padding (env_at 1000)
      conn_5_443 model_key (some cid_abcd1234) 1010 1 retry_token_example
      (by intro o h; cases h; exact ⟨⟨_, rfl, by decide⟩, by decide⟩) rfl).1,
   by decide⟩

/-! ## Lemmas on the bytes the validation reads -/

/-- The reads of the validation from a plaintext that starts with `P`, of `30 + n` bytes,
are reads from `P`. -/
theorem reads_of_head (P x : List Nat) (n : Nat) (hP : P.length = 30 + n) :
    (P ++ x).take 20 = P.take 20
    ∧ ((P ++ x).drop 20).take 8 = (P.drop 20).take 8
    ∧ (P ++ x).getD 28 0 = P.getD 28 0
    ∧ (P ++ x).getD 29 0 = P.getD 29 0
    ∧ ((P ++ x).drop 30).take n = (P.drop 30).take n := by
  refine ⟨?_, ?_, ?_, ?_, ?_⟩
  · exact List.take_append_of_le_length (by omega)
  · rw [List.drop_append_of_le_length (by omega)]
    exact List.take_append_of_le_length (by rw [List.length_drop]; omega)
  · exact List.getD_append _ _ _ _ (by omega)
  · exact List.getD_append _ _ _ _ (by omega)
  · rw [List.drop_append_of_le_length (by omega)]
    exact List.take_append_of_le_length (by rw [List.length_drop]; omega)

/-- What `ngx_quic_validate_token` does with a plaintext whose first `30 + L` bytes are
`P`, `L` being the id length byte: the bytes after `P` play no part. -/
theorem validate_of_head (L : Library) (env : Env) (c : ngx_connection_t) (key : List Nat)
    (pkt : ngx_quic_header_t) (P x : List Nat)
    (hdec : ngx_quic_validate_token_decrypt L env key pkt.token = .plain (P ++ x))
    (hP : P.length = 30 + P.getD 29 0) :
    ngx_quic_validate_token L env c key pkt =
      if P.take 20 ≠ ngx_quic_address_hash L c (!decide (P.getD 28 0 = 1)) then
        ⟨NGX_DECLINED, { pkt with retried := decide (P.getD 28 0 = 1) },
          some .invalid_token⟩
      else if P.getD 29 0 ≠ 0 ∧ P.getD 29 0 > 20 then
        ⟨NGX_DECLINED, { pkt with retried := decide (P.getD 28 0 = 1) },
          some .invalid_token⟩
      else if env.ngx_time > time_t_of_bytes ((P.drop 20).take 8) then
        ⟨NGX_DECLINED, { pkt with retried := decide (P.getD 28 0 = 1) },
          some .expired_token⟩
      else if P.getD 29 0 ≠ 0 then
        if env.ngx_pstrdup_ok = false then
          ⟨NGX_ERROR, { pkt with retried := decide (P.getD 28 0 = 1),
                                 odcid := ⟨P.getD 29 0, none⟩ }, none⟩
        else
          ⟨NGX_OK, { pkt with retried := decide (P.getD 28 0 = 1),
                              odcid := ⟨P.getD 29 0, some ((P.drop 30).take (P.getD 29 0))⟩,
                              validated := true }, none⟩
      else
        ⟨NGX_OK, { pkt with retried := decide (P.getD 28 0 = 1),
                            odcid := pkt.dcid, validated := true }, none⟩ := by
  obtain ⟨r1, r2, r3, r4, r5⟩ := reads_of_head P x (P.getD 29 0) hP
  rw [validate_of_plain L env c key pkt (P ++ x) hdec, r4, r1, r2, r3, r5]
  have h1 : ¬ (P ++ x).length < 30 := by rw [List.length_append]; omega
  have h4 : ¬ (P.getD 29 0 ≠ 0 ∧ (P ++ x).length - 30 < P.getD 29 0) := by
    rw [List.length_append]; omega
  rw [if_neg h1, if_neg h4]

/-- A plaintext of at least `n` bytes is its first `n` bytes and a rest. -/
theorem eq_take_append (t : List Nat) (n : Nat) (h : n ≤ t.length) :
    t = t.take n ++ t.drop n ∧ (t.take n).length = n :=
  ⟨(List.take_append_drop n t).symm, by rw [List.length_take]; omega⟩

/-- C16. Trailing bytes are ignored: two plaintexts that agree on the fingerprint, the
timestamp, the retry flag, the id length byte `L` and the `L` id bytes after it, that is
on their first `30 + L` bytes, and that both have at least `30 + L` bytes, get from
`ngx_quic_validate_token` the same return code, the same logged line and the same
`pkt->retried`, `pkt->odcid` and `pkt->validated`, for the same address and clock,
whatever follows the id in the one and in the other. -/
theorem C16_trailing_bytes_ignored (L : Library) (env : Env) (c : ngx_connection_t)
    (key : List Nat) (pkt : ngx_quic_header_t) (token' : ngx_str_t) (t t' : List Nat)
    (hdec : ngx_quic_validate_token_decrypt L env key pkt.token = .plain t)
    (hdec' : ngx_quic_validate_token_decrypt L env key token' = .plain t')
    (hlen : 20 + sizeof_time_t + 2 + t.getD 29 0 ≤ t.length)
    (hlen' : 20 + sizeof_time_t + 2 + t.getD 29 0 ≤ t'.length)
    (hagree : t.take (20 + sizeof_time_t + 2 + t.getD 29 0)
      = t'.take (20 + sizeof_time_t + 2 + t.getD 29 0)) :
    (ngx_quic_validate_token L env c key pkt).rc
        = (ngx_quic_validate_token L env c key { pkt with token := token' }).rc
    ∧ (ngx_quic_validate_token L env c key pkt).pkt.retried
        = (ngx_quic_validate_token L env c key { pkt with token := token' }).pkt.retried
    ∧ (ngx_quic_validate_token L env c key pkt).pkt.odcid
        = (ngx_quic_validate_token L env c key { pkt with token := token' }).pkt.odcid
    ∧ (ngx_quic_validate_token L env c key pkt).pkt.validated
        = (ngx_quic_validate_token L env c key { pkt with token := token' }).pkt.validated
    ∧ (ngx_quic_validate_token L env c key pkt).log
        = (ngx_quic_validate_token L env c key { pkt with token := token' }).log := by
  simp only [sizeof_time_t] at hlen hlen' hagree
  have e30 : 20 + 8 + 2 + t.getD 29 0 = 30 + t.getD 29 0 := by omega
  rw [e30] at hlen hlen' hagree
  obtain ⟨ht, hPl⟩ := eq_take_append t (30 + t.getD 29 0) hlen
  obtain ⟨ht', _⟩ := eq_take_append t' (30 + t.getD 29 0) hlen'
  rw [← hagree] at ht'
  have hL : (t.take (30 + t.getD 29 0)).getD 29 0 = t.getD 29 0 := by
    have := (reads_of_head (t.take (30 + t.getD 29 0)) (t.drop (30 + t.getD 29 0))
      (t.getD 29 0) hPl).2.2.2.1
    rw [← ht] at this
    exact this.symm
  have hP : (t.take (30 + t.getD 29 0)).length
      = 30 + (t.take (30 + t.getD 29 0)).getD 29 0 := by rw [hL]; exact hPl
  rw [ht] at hdec
  rw [ht'] at hdec'
  have hdec2 : ngx_quic_validate_token_decrypt L env key
      ({ pkt with token := token' } : ngx_quic_header_t).token
      = .plain (t.take (30 + t.getD 29 0) ++ t'.drop (30 + t.getD 29 0)) := hdec'
  rw [validate_of_head L env c key pkt _ _ hdec hP,
    validate_of_head L env c key { pkt with token := token' } _ _ hdec2 hP]
  split_ifs <;> exact ⟨rfl, rfl, rfl, rfl, rfl⟩

/-- A token with an id of 2 bytes, and the same plaintext with 5 more bytes at its end. -/
theorem C16_trailing_bytes_ignored_witness :
    plain_id_2 ≠ plain_id_2_trailing
    ∧ (ngx_quic_validate_token model_library (env_at 1000) conn_5_443 model_key
        (pkt_with (token_of_plain plain_id_2))).pkt.odcid
      = (ngx_quic_validate_token model_library (env_at 1000) conn_5_443 model_key
          { pkt_with (token_of_plain plain_id_2) with
              token := token_of_plain plain_id_2_trailing }).pkt.odcid :=
  ⟨by decide,
   (C16_trailing_bytes_ignored model_library (env_at 1000) conn_5_443 model_key
      (pkt_with (token_of_plain plain_id_2)) (token_of_plain plain_id_2_trailing)
      plain_id_2 plain_id_2_trailing rfl rfl (by decide) (by decide) (by decide)).2.2.1⟩

theorem NGX_ABORT_ne_NGX_ERROR : NGX_ABORT ≠ NGX_ERROR := by decide

theorem NGX_DECLINED_ne_NGX_ERROR : NGX_DECLINED ≠ NGX_ERROR := by decide

/-! ## Lemmas on the size of the decrypted plaintext -/

/-- What a decryption that ends with a plaintext has gone through. -/
theorem decrypt_plain_inv (L : Library) (env : Env) (key : List Nat) (token : ngx_str_t)
    (tdec : List Nat)
    (h : ngx_quic_validate_token_decrypt L env key token = .plain tdec) :
    32 ≤ token.len ∧ token.len ≤ 80
    ∧ ∃ d1 d2, L.EVP_DecryptUpdate key (token.bytes.take 16) (token.bytes.drop 16) = some d1
      ∧ L.EVP_DecryptFinal_ex key (token.bytes.take 16) (token.bytes.drop 16) = some d2
      ∧ tdec = d1 ++ d2 := by
  unfold ngx_quic_validate_token_decrypt at h
  simp only [EVP_CIPHER_iv_length, EVP_CIPHER_block_size, NGX_QUIC_MAX_TOKEN_SIZE] at h
  by_cases h1 : token.len < 16 + 16
  · rw [if_pos h1] at h; cases h
  rw [if_neg h1] at h
  by_cases h2 : token.len > 16 + 64
  · rw [if_pos h2] at h; cases h
  rw [if_neg h2] at h
  by_cases h3 : env.EVP_CIPHER_CTX_new_ok = false
  · rw [if_pos h3] at h; cases h
  rw [if_neg h3] at h
  by_cases h4 : env.EVP_Init_ex_ok = false
  · rw [if_pos h4] at h; cases h
  rw [if_neg h4] at h
  cases hu : L.EVP_DecryptUpdate key (token.bytes.take 16) (token.bytes.drop 16) with
  | none => simp only [hu] at h; cases h
  | some d1 =>
    cases hf : L.EVP_DecryptFinal_ex key (token.bytes.take 16) (token.bytes.drop 16) with
    | none => simp only [hu, hf] at h; cases h
    | some d2 =>
      simp only [hu, hf] at h
      refine ⟨by omega, by omega, d1, d2, rfl, rfl, ?_⟩
      exact (decrypted.plain.inj h).symm

/-- Under a cipher that gives no more bytes than it is fed, the plaintext fits the 64
bytes of `tdec`. -/
theorem decrypt_plain_length (L : Library) (hb : L.decrypt_bounded) (env : Env)
    (key : List Nat) (token : ngx_str_t) (tdec : List Nat)
    (h : ngx_quic_validate_token_decrypt L env key token = .plain tdec) :
    tdec.length ≤ 64 := by
  obtain ⟨_, h80, d1, d2, hu, hf, rfl⟩ := decrypt_plain_inv L env key token tdec h
  have := hb _ _ _ d1 d2 hu hf
  have hbytes : token.bytes.length ≤ token.len := by
    simp only [ngx_str_t.bytes, List.length_take]
    omega
  rw [List.length_drop] at this
  rw [List.length_append]
  omega

theorem cbc_decrypt_length_le (key : List Nat) (n : Nat) (prev data : List Nat) :
    (cbc_decrypt key n prev data).length ≤ data.length := by
  induction n generalizing prev data with
  | zero => simp [cbc_decrypt]
  | succ n ih =>
    simp only [cbc_decrypt, List.length_append]
    have h1 : (xor_bytes (model_block key (data.take 16)) prev).length
        ≤ (data.take 16).length := by
      simp only [xor_bytes_length, model_block]
      omega
    have h2 := ih (data.take 16) (data.drop 16)
    have h3 : (data.take 16).length + (data.drop 16).length = data.length := by
      rw [← List.length_append, List.take_append_drop]
    omega

theorem pkcs7_unpad_length (blk d : List Nat) (h : pkcs7_unpad blk = some d) :
    d.length ≤ blk.length := by
  unfold pkcs7_unpad at h
  simp only at h
  split_ifs at h with h1 h2
  have := (Option.some.inj h).symm
  rw [this, List.length_take]
  omega

theorem model_library_decrypt_bounded : model_library.decrypt_bounded := by
  intro key iv data d1 d2 hu hf
  simp only [model_library, model_DecryptUpdate, model_DecryptFinal_ex] at hu hf
  have hu' := (Option.some.inj hu).symm
  by_cases hm : data.length % 16 ≠ 0 ∨ data.length = 0
  · rw [if_pos hm] at hf; cases hf
  rw [if_neg hm] at hf
  have hm0 : data.length % 16 = 0 := by omega
  rw [if_pos hm0] at hu'
  have h2 := pkcs7_unpad_length _ _ hf
  have h3 := cbc_decrypt_length_le key (data.length / 16) iv data
  rw [List.length_drop] at h2
  rw [hu', List.length_take]
  omega

/-- C17. The accepted id lies inside the decrypted data: when the call gets to the copy
of the original connection id, that is when the token has decrypted to `total` bytes, the
id length byte `L` is not 0 and the call returns `NGX_OK` or, the pool failing at the
copy, `NGX_ERROR`, then `1 ≤ L ≤ 20` and `20 + sizeof(time_t) + 2 + L ≤ total ≤ 64`; the
`L` bytes copied are the bytes `30 .. 30 + L - 1` of the plaintext, all inside what the
decryption has written and inside the buffer. The cipher is one that gives no more bytes
than it is fed. -/
theorem C17_copied_id_in_bounds (L : Library) (hb : L.decrypt_bounded) (env : Env)
    (c : ngx_connection_t) (key : List Nat) (pkt : ngx_quic_header_t) (tdec : List Nat)
    (hdec : ngx_quic_validate_token_decrypt L env key pkt.token = .plain tdec)
    (hL : tdec.getD 29 0 ≠ 0)
    (hreach : (ngx_quic_validate_token L env c key pkt).rc = NGX_OK
      ∨ (ngx_quic_validate_token L env c key pkt).rc = NGX_ERROR) :
    1 ≤ tdec.getD 29 0 ∧ tdec.getD 29 0 ≤ NGX_QUIC_MAX_CID_LEN
    ∧ 20 + sizeof_time_t + 2 + tdec.getD 29 0 ≤ tdec.length
    ∧ tdec.length ≤ NGX_QUIC_MAX_TOKEN_SIZE
    ∧ ((tdec.drop 30).take (tdec.getD 29 0)).length = tdec.getD 29 0
    ∧ (∀ i, i < tdec.getD 29 0 →
        30 + i < tdec.length ∧ 30 + i < NGX_QUIC_MAX_TOKEN_SIZE
        ∧ ((tdec.drop 30).take (tdec.getD 29 0))[i]? = tdec[30 + i]?) := by
  have h64 := decrypt_plain_length L hb env key pkt.token tdec hdec
  rw [validate_of_plain L env c key pkt tdec hdec] at hreach
  by_cases h1 : tdec.length < 30
  · rw [if_pos h1] at hreach
    rcases hreach with h | h
    · exact absurd h NGX_ABORT_ne_NGX_OK
    · exact absurd h NGX_ABORT_ne_NGX_ERROR
  rw [if_neg h1] at hreach
  by_cases h2 : tdec.take 20
      ≠ ngx_quic_address_hash L c (!decide (tdec.getD 28 0 = 1))
  · rw [if_pos h2] at hreach
    rcases hreach with h | h
    · exact absurd h NGX_DECLINED_ne_NGX_OK
    · exact absurd h NGX_DECLINED_ne_NGX_ERROR
  rw [if_neg h2] at hreach
  by_cases h3 : tdec.getD 29 0 ≠ 0 ∧ tdec.getD 29 0 > 20
  · rw [if_pos h3] at hreach
    rcases hreach with h | h
    · exact absurd h NGX_DECLINED_ne_NGX_OK
    · exact absurd h NGX_DECLINED_ne_NGX_ERROR
  by_cases h4 : tdec.getD 29 0 ≠ 0 ∧ tdec.length - 30 < tdec.getD 29 0
  · rw [if_neg h3, if_pos h4] at hreach
    rcases hreach with h | h
    · exact absurd h NGX_DECLINED_ne_NGX_OK
    · exact absurd h NGX_DECLINED_ne_NGX_ERROR
  simp only [NGX_QUIC_MAX_CID_LEN, sizeof_time_t, NGX_QUIC_MAX_TOKEN_SIZE]
  refine ⟨by omega, by omega, by omega, h64, by rw [List.length_take, List.length_drop]; omega,
    ?_⟩
  intro i hi
  refine ⟨by omega, by omega, ?_⟩
  rw [List.getElem?_take, if_pos hi, List.getElem?_drop]

/-- The retry token of the scenario: an id of 8 bytes in a plaintext of 38. -/
theorem C17_copied_id_in_bounds_witness :
    20 + sizeof_time_t + 2
        + (ngx_quic_new_token_in model_library conn_5_443 (some cid_abcd1234) 1010 1).getD 29 0
      ≤ (ngx_quic_new_token_in model_library conn_5_443 (some cid_abcd1234) 1010 1).length
    ∧ (ngx_quic_new_token_in model_library conn_5_443 (some cid_abcd1234) 1010 1).length
      ≤ NGX_QUIC_MAX_TOKEN_SIZE :=
  have h := C17_copied_id_in_bounds model_library model_library_decrypt_bounded
    (env_at 1000) conn_5_443 model_key (pkt_with retry_token_example)
    (ngx_quic_new_token_in model_library conn_5_443 (some cid_abcd1234) 1010 1)
    rfl (by decide) (Or.inl (by decide))
  ⟨h.2.2.1, h.2.2.2.1⟩

theorem NGX_DECLINED_ne_NGX_ABORT : NGX_DECLINED ≠ NGX_ABORT := by decide

/-- C18, as the code has it. Frame on rejection: a call that does not return `NGX_OK`
leaves `pkt->validated`, `pkt->dcid` and `pkt->token` as they were, and leaves
`pkt->odcid` as it was except when the pool copy of an id that is not empty fails, where
it returns `NGX_ERROR` with `pkt->odcid.len` set to the id length and `pkt->odcid.data`
set to `NULL`. On `NGX_ABORT` nothing of the packet changes; `pkt->retried` changes only
on calls that got past the minimum length check, where it is the decoded flag. -/
theorem C18_frame_on_rejection (L : Library) (env : Env) (c : ngx_connection_t)
    (key : List Nat) (pkt : ngx_quic_header_t)
    (hrej : (ngx_quic_validate_token L env c key pkt).rc ≠ NGX_OK) :
    (ngx_quic_validate_token L env c key pkt).pkt.validated = pkt.validated
    ∧ (ngx_quic_validate_token L env c key pkt).pkt.dcid = pkt.dcid
    ∧ (ngx_quic_validate_token L env c key pkt).pkt.token = pkt.token
    ∧ ((ngx_quic_validate_token L env c key pkt).pkt.odcid = pkt.odcid
        ∨ ((ngx_quic_validate_token L env c key pkt).rc = NGX_ERROR
          ∧ env.ngx_pstrdup_ok = false
          ∧ ∃ tdec, ngx_quic_validate_token_decrypt L env key pkt.token = .plain tdec
            ∧ tdec.getD 29 0 ≠ 0
            ∧ (ngx_quic_validate_token L env c key pkt).pkt.odcid
                = ⟨tdec.getD 29 0, none⟩))
    ∧ ((ngx_quic_validate_token L env c key pkt).rc = NGX_ABORT →
        (ngx_quic_validate_token L env c key pkt).pkt = pkt)
    ∧ ((ngx_quic_validate_token L env c key pkt).rc = NGX_DECLINED →
        (ngx_quic_validate_token L env c key pkt).pkt
          = { pkt with retried := (ngx_quic_validate_token L env c key pkt).pkt.retried })
    ∧ ((ngx_quic_validate_token L env c key pkt).pkt.retried ≠ pkt.retried →
        (ngx_quic_validate_token L env c key pkt).rc ≠ NGX_ABORT
        ∧ ∃ tdec, ngx_quic_validate_token_decrypt L env key pkt.token = .plain tdec
          ∧ 20 + sizeof_time_t + 2 ≤ tdec.length
          ∧ (ngx_quic_validate_token L env c key pkt).pkt.retried
              = decide (tdec.getD 28 0 = 1)) := by
  cases hdec : ngx_quic_validate_token_decrypt L env key pkt.token with
  | garbage =>
    rw [validate_of_garbage L env c key pkt hdec]
    exact ⟨rfl, rfl, rfl, Or.inl rfl, fun _ => rfl, fun h => absurd h.symm NGX_DECLINED_ne_NGX_ABORT,
        fun h => absurd rfl h⟩
  | error =>
    have e : ngx_quic_validate_token L env c key pkt = ⟨NGX_ERROR, pkt, none⟩ := by
      simp only [ngx_quic_validate_token, hdec]
    rw [e]
    exact ⟨rfl, rfl, rfl, Or.inl rfl, fun _ => rfl, fun h => absurd h.symm NGX_DECLINED_ne_NGX_ERROR,
        fun h => absurd rfl h⟩
  | plain tdec =>
    rw [validate_of_plain L env c key pkt tdec hdec] at hrej ⊢
    by_cases h1 : tdec.length < 30
    · rw [if_pos h1]
      exact ⟨rfl, rfl, rfl, Or.inl rfl, fun _ => rfl, fun h => absurd h.symm NGX_DECLINED_ne_NGX_ABORT,
        fun h => absurd rfl h⟩
    rw [if_neg h1] at hrej ⊢
    have hp : 20 + sizeof_time_t + 2 ≤ tdec.length := by simp only [sizeof_time_t]; omega
    by_cases h2 : tdec.take 20
        ≠ ngx_quic_address_hash L c (!decide (tdec.getD 28 0 = 1))
    · rw [if_pos h2]
      exact ⟨rfl, rfl, rfl, Or.inl rfl, fun h => absurd h NGX_DECLINED_ne_NGX_ABORT,
        fun _ => rfl, fun _ => ⟨NGX_DECLINED_ne_NGX_ABORT, tdec, rfl, hp, rfl⟩⟩
    rw [if_neg h2] at hrej ⊢
    by_cases h3 : tdec.getD 29 0 ≠ 0 ∧ tdec.getD 29 0 > 20
    · rw [if_pos h3]
      exact ⟨rfl, rfl, rfl, Or.inl rfl, fun h => absurd h NGX_DECLINED_ne_NGX_ABORT,
        fun _ => rfl, fun _ => ⟨NGX_DECLINED_ne_NGX_ABORT, tdec, rfl, hp, rfl⟩⟩
    rw [if_neg h3] at hrej ⊢
    by_cases h4 : tdec.getD 29 0 ≠ 0 ∧ tdec.length - 30 < tdec.getD 29 0
    · rw [if_pos h4]
      exact ⟨rfl, rfl, rfl, Or.inl rfl, fun h => absurd h NGX_DECLINED_ne_NGX_ABORT,
        fun _ => rfl, fun _ => ⟨NGX_DECLINED_ne_NGX_ABORT, tdec, rfl, hp, rfl⟩⟩
    rw [if_neg h4] at hrej ⊢
    by_cases h5 : env.ngx_time > time_t_of_bytes ((tdec.drop 20).take 8)
    · rw [if_pos h5]
      exact ⟨rfl, rfl, rfl, Or.inl rfl, fun h => absurd h NGX_DECLINED_ne_NGX_ABORT,
        fun _ => rfl, fun _ => ⟨NGX_DECLINED_ne_NGX_ABORT, tdec, rfl, hp, rfl⟩⟩
    rw [if_neg h5] at hrej ⊢
    by_cases h6 : tdec.getD 29 0 ≠ 0
    · rw [if_pos h6] at hrej ⊢
      by_cases h7 : env.ngx_pstrdup_ok = false
      · rw [if_pos h7]
        exact ⟨rfl, rfl, rfl, Or.inr ⟨rfl, h7, tdec, rfl, h6, rfl⟩,
          fun h => absurd h.symm NGX_ABORT_ne_NGX_ERROR,
          fun h => absurd h.symm NGX_DECLINED_ne_NGX_ERROR,
          fun _ => ⟨fun h => NGX_ABORT_ne_NGX_ERROR h.symm, tdec, rfl, hp, rfl⟩⟩
      · rw [if_neg h7] at hrej
        exact absurd rfl hrej
    · rw [if_neg h6] at hrej
      exact absurd rfl hrej

/-- The retry token of the scenario, presented after its expiry: only `pkt->retried`
changes. -/
theorem C18_frame_on_rejection_witness :
    (ngx_quic_validate_token model_library (env_at 1011) conn_5_443 model_key
        (pkt_with retry_token_example)).pkt
      = { pkt_with retry_token_example with
            retried := (ngx_quic_validate_token model_library (env_at 1011) conn_5_443
              model_key (pkt_with retry_token_example)).pkt.retried } :=
  (C18_frame_on_rejection model_library (env_at 1011) conn_5_443 model_key
    (pkt_with retry_token_example) (by decide)).2.2.2.2.2.1 (by decide)

/-- C18, as the claim has it, fails: when the pool copy fails for a packet whose
`pkt->odcid.data` pointed to four bytes, the call returns `NGX_ERROR` and
`pkt->odcid.data` is `NULL` afterwards, so more of `pkt->odcid` than its `len` has
changed. -/
theorem C18_counterexample :
    (ngx_quic_validate_token model_library (env_no_pool 1000) conn_5_443 model_key
        pkt_odcid_set).rc = NGX_ERROR
    ∧ (ngx_quic_validate_token model_library (env_no_pool 1000) conn_5_443 model_key
        pkt_odcid_set).rc ≠ NGX_OK
    ∧ pkt_odcid_set.odcid.data = some [9, 9, 9, 9]
    ∧ (ngx_quic_validate_token model_library (env_no_pool 1000) conn_5_443 model_key
        pkt_odcid_set).pkt.odcid = ⟨8, none⟩
    ∧ (ngx_quic_validate_token model_library (env_no_pool 1000) conn_5_443 model_key
        pkt_odcid_set).pkt.odcid.data ≠ pkt_odcid_set.odcid.data := by
  decide

end NgxQuicTokens
